import Mathlib

/-!
Shallow embedding of the orchestration core of the chasi-bod platform
(deployment-phase pipeline, vcluster lifecycle manager, vcluster client
resolver, lifecycle manager, health aggregator, configuration validator),
together with theorems settling the specification claims about it.

Go source conventions modelled here:
  * Go `error` values become an inductive `CbError` carrying the domain
    error type, the message template data, and an optional cause
    (mirroring `errors.New` / `errors.NewWithCause`).
  * Pointer-receiver mutation is modelled by explicit state passing:
    a function that mutates `*T` returns the post-call value of `T`.
  * Go `map[string]V` fields are modelled as association lists
    (`List (String × V)`); iteration order is the list order.
  * External collaborators (remote node execution, the live Kubernetes
    API, Go's `net.ParseIP` / `net.ParseCIDR` / `time.ParseDuration`)
    are parameters (oracles) of the embedded functions.
-/

namespace ChasiBod

/-- Domain error kinds, from `common/errors` (as referenced by the source:
`ErrTypeValidation`, `ErrTypeSystem`, `ErrTypeVCluster`, `ErrTypeInternal`,
`ErrTypeReliability`, `ErrTypeNotFound`, ...). -/
inductive ErrType where
  | validation
  | notFound
  | alreadyExists
  | timeout
  | system
  | io
  | network
  | vcluster
  | application
  | dfx
  | reliability
  | internal
  | notImplemented
deriving DecidableEq, Repr

/-- A Go error value: domain type, message, optional wrapped cause
(`errors.New` has no cause, `errors.NewWithCause` has one). -/
inductive CbError where
  | mk (typ : ErrType) (msg : String) (cause : Option CbError)
deriving Repr

def CbError.decEq : (a b : CbError) → Decidable (a = b)
  | .mk t1 m1 none, .mk t2 m2 none =>
    if h1 : t1 = t2 then
      if h2 : m1 = m2 then isTrue (by rw [h1, h2])
      else isFalse (by intro h; cases h; exact h2 rfl)
    else isFalse (by intro h; cases h; exact h1 rfl)
  | .mk _ _ none, .mk _ _ (some _) => isFalse (by intro h; cases h)
  | .mk _ _ (some _), .mk _ _ none => isFalse (by intro h; cases h)
  | .mk t1 m1 (some c1), .mk t2 m2 (some c2) =>
    if h1 : t1 = t2 then
      if h2 : m1 = m2 then
        match CbError.decEq c1 c2 with
        | isTrue h3 => isTrue (by rw [h1, h2, h3])
        | isFalse h3 => isFalse (by intro h; cases h; exact h3 rfl)
      else isFalse (by intro h; cases h; exact h2 rfl)
    else isFalse (by intro h; cases h; exact h1 rfl)

instance : DecidableEq CbError := CbError.decEq

instance {ε α : Type} [DecidableEq ε] [DecidableEq α] :
    DecidableEq (Except ε α) := fun
  | .error a, .error b =>
    if h : a = b then isTrue (by rw [h])
    else isFalse (by intro hh; cases hh; exact h rfl)
  | .error _, .ok _ => isFalse (by intro hh; cases hh)
  | .ok _, .error _ => isFalse (by intro hh; cases hh)
  | .ok a, .ok b =>
    if h : a = b then isTrue (by rw [h])
    else isFalse (by intro hh; cases hh; exact h rfl)

def CbError.typ : CbError → ErrType
  | .mk t _ _ => t

def CbError.msg : CbError → String
  | .mk _ m _ => m

def CbError.cause : CbError → Option CbError
  | .mk _ _ c => c

/-- `errors.New(typ, msg)` -/
def errNew (typ : ErrType) (msg : String) : CbError := .mk typ msg none

/-- `errors.NewWithCause(typ, msg, cause)` -/
def errWithCause (typ : ErrType) (msg : String) (cause : CbError) : CbError :=
  .mk typ msg (some cause)

/-! ## Health aggregator (`pkg/dfx/healthz/healthz.go`) -/

/-- `HealthCheckResult` from `pkg/dfx/healthz/healthz.go`. The status is a
plain string in the source (`"Healthy"`, `"Degraded"`, `"Unhealthy"`,
`"Unknown"`). -/
structure HealthCheckResult where
  name : String
  status : String
  message : String
  error : String
deriving DecidableEq, Repr

/-- `OverallHealthStatus` from `pkg/dfx/healthz/healthz.go`. -/
structure OverallHealthStatus where
  status : String
  results : List HealthCheckResult
deriving DecidableEq, Repr

/-- The loop body of `defaultManager.determineOverallStatus`: walks the
results accumulating `hasDegraded`; returns `"Unhealthy"` as soon as one
result has that status; after the loop returns `"Degraded"` if any result
was degraded, else the initial `"Healthy"`. -/
def determineOverallStatusLoop : List HealthCheckResult → Bool → String
  | [], hasDegraded => if hasDegraded then "Degraded" else "Healthy"
  | r :: rs, hasDegraded =>
    if r.status = "Unhealthy" then "Unhealthy"
    else determineOverallStatusLoop rs (hasDegraded || decide (r.status = "Degraded"))

/-- `defaultManager.determineOverallStatus` from
`pkg/dfx/healthz/healthz.go`: starts from `"Healthy"` and folds the
results. -/
def determineOverallStatus (results : List HealthCheckResult) : OverallHealthStatus :=
  { status := determineOverallStatusLoop results false, results := results }

/-! ## Net utilities (`common/utils/net.go`) -/

/-- The character class accepted by the loop in `IsValidHostname`
(letters, digits, hyphen, dot). -/
def isHostnameChar (c : Char) : Bool :=
  (('a' ≤ c && c ≤ 'z') || ('A' ≤ c && c ≤ 'Z') || ('0' ≤ c && c ≤ '9')
    || c = '-' || c = '.')

/-- `utils.IsValidHostname` from `common/utils/net.go`: rejects the empty
string and strings longer than 253, any character outside
letters/digits/hyphen/dot, and a leading or trailing hyphen. -/
def IsValidHostname (hostname : String) : Bool :=
  if hostname.length = 0 || hostname.length > 253 then false
  else if !(hostname.toList.all isHostnameChar) then false
  else if hostname.toList.head? = some '-'
          || hostname.toList.getLast? = some '-' then false
  else true

/-! ## Configuration data model (`pkg/config/model/config.go`)

Fields that no embedded operation reads (labels, annotations, taints,
yaml-only metadata, helm values, ...) are omitted. Go enum string types
(`enum.NodeRole`, `enum.ApplicationType`, `enum.BuilderOutputFormat`) are
open string types in the source and are kept as `String` here, with the
enum constants from `common/types/enum/enum.go` as definitions. -/

/-- `enum.RoleMaster` -/
def roleMaster : String := "master"

/-- `enum.RoleWorker` -/
def roleWorker : String := "worker"

/-- `enum.RoleEdge` -/
def roleEdge : String := "edge"

/-- `types.SysctlConfig` (a `map[string]string`); the file declaring it is
not in the corpus, its shape is reconstructed from its uses in
`validator.go` (iteration over parameter names). -/
def SysctlConfig := List (String × String)
deriving DecidableEq, Repr

/-- `types.NetworkConfig`: fields as read by `validateNetworkConfig`. -/
structure NetworkConfig where
  plugin : String
  podCIDR : String
  serviceCIDR : String
deriving DecidableEq, Repr

/-- A `types.StorageClassConfig` entry as read by `validateStorageConfig`. -/
structure StorageClassConfig where
  name : String
  provisioner : String
deriving DecidableEq, Repr

/-- A `types.PVConfig` entry as read by `validateStorageConfig`. -/
structure PVConfig where
  name : String
  capacity : String
  accessModes : List String
deriving DecidableEq, Repr

/-- `types.StorageConfig`: fields as read by `validateStorageConfig`. -/
structure StorageConfig where
  defaultStorageClass : String
  storageClasses : List StorageClassConfig
  pvConfigs : List PVConfig
deriving DecidableEq, Repr

/-- `model.FileConfig` -/
structure FileConfig where
  source : String
  dest : String
  mode : String
deriving DecidableEq, Repr

/-- `model.UserConfig` (only `Name` is consulted by the validator). -/
structure UserConfig where
  name : String
deriving DecidableEq, Repr

/-- `model.DiskConfig` -/
structure DiskConfig where
  device : String
  filesystem : String
  mountPoint : String
  format : Bool
deriving DecidableEq, Repr

/-- `model.NodeConfig` -/
structure NodeConfig where
  address : String
  user : String
  password : String
  privateKey : String
  port : Int
  roles : List String
  sysctlConfig : SysctlConfig
  diskConfigs : List DiskConfig
deriving DecidableEq, Repr

/-- `model.BaseOSConfig` (fields consulted by `validateBaseOSConfig`). -/
structure BaseOSConfig where
  image : String
  sysctlConfig : SysctlConfig
  files : List FileConfig
  users : List UserConfig
deriving DecidableEq, Repr

/-- `model.ClusterConfig` -/
structure ClusterConfig where
  name : String
  kubernetesVersion : String
  containerRuntime : String
  network : NetworkConfig
  storage : StorageConfig
  nodes : List NodeConfig
  baseOS : BaseOSConfig
deriving DecidableEq, Repr

/-- `model.VClusterConfig` (fields consulted by the validator and the
vcluster manager). -/
structure VClusterConfig where
  name : String
  «namespace» : String
  kubernetesVersion : String
  serviceCIDR : String
  podCIDR : String
  network : Option NetworkConfig
  storage : Option StorageConfig
deriving DecidableEq, Repr

/-- `model.HelmChartConfig` (fields consulted by the validator). -/
structure HelmChartConfig where
  chart : String
  repo : String
  version : String
  releaseName : String
deriving DecidableEq, Repr

/-- `model.KustomizeConfig` -/
structure KustomizeConfig where
  path : String
deriving DecidableEq, Repr

/-- `model.ApplicationConfig` (`Type` is written `typ`). -/
structure ApplicationConfig where
  name : String
  vclusterName : String
  «namespace» : String
  typ : String
  helmChart : Option HelmChartConfig
  kustomize : Option KustomizeConfig
  manifests : List String
deriving DecidableEq, Repr

/-- `model.OutputConfig` -/
structure OutputConfig where
  format : String
  outputDir : String
  imageName : String
deriving DecidableEq, Repr

/-- `model.Metadata` (only `Name` is consulted). -/
structure Metadata where
  name : String
deriving DecidableEq, Repr

/-- `model.OutputDestinationConfig` (`Type` written `typ`). -/
structure OutputDestinationConfig where
  typ : String
  endpoint : String
deriving DecidableEq, Repr

/-- `model.LoggingConfig` -/
structure LoggingConfig where
  enabled : Bool
  agent : String
  output : OutputDestinationConfig
deriving DecidableEq, Repr

/-- `model.MetricScrapeConfig` (only presence is consulted). -/
structure MetricScrapeConfig where
  jobName : String
deriving DecidableEq, Repr

/-- `model.MetricsConfig` -/
structure MetricsConfig where
  enabled : Bool
  agent : String
  scrapeConfigs : List MetricScrapeConfig
deriving DecidableEq, Repr

/-- `model.TracingConfig` -/
structure TracingConfig where
  enabled : Bool
  agent : String
  endpoint : String
deriving DecidableEq, Repr

/-- `model.HealthzConfig` -/
structure HealthzConfig where
  enabled : Bool
  interval : String
  timeout : String
deriving DecidableEq, Repr

/-- `model.ConfigBackupConfig` -/
structure ConfigBackupConfig where
  enabled : Bool
  schedule : String
  location : String
deriving DecidableEq, Repr

/-- `model.ETCDBackupConfig` -/
structure ETCDBackupConfig where
  enabled : Bool
  schedule : String
  location : String
deriving DecidableEq, Repr

/-- `model.ReliabilityConfig` -/
structure ReliabilityConfig where
  configBackup : ConfigBackupConfig
  etcdBackup : ETCDBackupConfig
deriving DecidableEq, Repr

/-- `model.DFXConfig` -/
structure DFXConfig where
  logging : LoggingConfig
  metrics : MetricsConfig
  tracing : TracingConfig
  healthz : HealthzConfig
  reliability : ReliabilityConfig
deriving DecidableEq, Repr

/-- `model.PlatformConfig`. The Go `map[string]VClusterConfig` /
`map[string]ApplicationConfig` fields are association lists; loops iterate
in list order (Go map iteration order is unspecified). -/
structure PlatformConfig where
  metadata : Metadata
  cluster : ClusterConfig
  vclusters : List (String × VClusterConfig)
  applications : List (String × ApplicationConfig)
  sysctlConfig : SysctlConfig
  output : OutputConfig
  dfxConfig : DFXConfig
deriving DecidableEq, Repr

/-- External Go standard-library predicates consumed by the validator:
`net.ParseIP(s) != nil`, `net.ParseCIDR(s)` succeeding, and
`time.ParseDuration(s)` succeeding. They live outside the repository and
are oracle parameters of the embedding. -/
structure StdlibOracle where
  isValidIPAddress : String → Bool
  parseCIDROk : String → Bool
  parseDurationOk : String → Bool

/-! ## Configuration validator (`pkg/config/validator/validator.go`)

Each `errors.New(ErrTypeValidation, msg)` site becomes one constructor of
a structured error type carrying the data interpolated into the message;
`fmt.Errorf("...: %w", err)` wrapping becomes a constructor holding the
inner error. All of these are Validation-domain errors in the source.
Functions that mutate their `*T` argument return the post-call value of
`T` in the `ok` case. -/

/-- Errors of `validateOutputConfig`. -/
inductive OutputVErr where
  | outputDirRequired
  | invalidFormat (format : String)
  | imageNameRequired
deriving DecidableEq, Repr

/-- Errors of `validateSysctlConfig`. -/
inductive SysctlVErr where
  | emptyParamName
deriving DecidableEq, Repr

/-- Errors of `validateNodeConfig`. -/
inductive NodeVErr where
  | addressRequired
  | invalidAddressFormat (addr : String)
  | userRequired (addr : String)
  | bothPasswordAndKey (addr : String)
  | neitherPasswordNorKey (addr : String)
  | invalidPort (addr : String) (port : Int)
  | rolesRequired (addr : String)
  | invalidRole (addr : String) (role : String)
  | sysctl (addr : String) (e : SysctlVErr)
  | diskDeviceRequired (addr : String)
  | diskFilesystemRequired (addr : String) (device : String)
deriving DecidableEq, Repr

/-- Errors of `validateNetworkConfig`. -/
inductive NetworkVErr where
  | pluginRequired
  | invalidPodCIDR (cidr : String)
  | invalidServiceCIDR (cidr : String)
deriving DecidableEq, Repr

/-- Errors of `validateStorageConfig`. -/
inductive StorageVErr where
  | storageClassNameProvisionerRequired
  | pvNameCapacityRequired
  | pvAccessModesRequired (name : String)
deriving DecidableEq, Repr

/-- Errors of `validateBaseOSConfig`. -/
inductive BaseOSVErr where
  | imageRequired
  | sysctl (e : SysctlVErr)
  | fileSourceDestRequired
  | userNameRequired
deriving DecidableEq, Repr

/-- Errors of `validateClusterConfig`. -/
inductive ClusterVErr where
  | nameRequired
  | kubernetesVersionRequired
  | network (e : NetworkVErr)
  | storage (e : StorageVErr)
  | nodesRequired
  | node (addr : String) (e : NodeVErr)
  | noMasterRole
  | baseOS (e : BaseOSVErr)
deriving DecidableEq, Repr

/-- Errors of `validateVClusterConfig`. -/
inductive VClusterVErr where
  | nameRequired
  | nameMismatch (cfgName : String) (key : String)
  | namespaceRequired (name : String)
  | kubernetesVersionRequired (name : String)
  | invalidServiceCIDR (name : String) (cidr : String)
  | invalidPodCIDR (name : String) (cidr : String)
  | network (name : String) (e : NetworkVErr)
  | storage (name : String) (e : StorageVErr)
deriving DecidableEq, Repr

/-- Errors of `validateApplicationConfig`. -/
inductive AppVErr where
  | nameRequired
  | nameMismatch (cfgName : String) (key : String)
  | vclusterNameRequired (name : String)
  | invalidType (name : String) (typ : String)
  | noManifestSource (name : String)
  | helmChartIncomplete (name : String)
  | kustomizePathRequired (name : String)
  | emptyManifestPath (name : String)
  | multipleManifestSources (name : String)
deriving DecidableEq, Repr

/-- Errors of `validateDFXConfig`. -/
inductive DFXVErr where
  | loggingAgentRequired
  | loggingOutputTypeRequired
  | metricsAgentRequired
  | tracingAgentRequired
  | tracingEndpointRequired
  | invalidHealthzInterval (s : String)
  | invalidHealthzTimeout (s : String)
  | configBackupLocationRequired
  | etcdBackupLocationRequired
deriving DecidableEq, Repr

/-- Errors of `ValidateConfig`. -/
inductive PlatformVErr where
  | metadataNameRequired
  | output (e : OutputVErr)
  | cluster (e : ClusterVErr)
  | sysctl (e : SysctlVErr)
  | vcluster (name : String) (e : VClusterVErr)
  | appTargetsMissingVCluster (app : String) (vclusterName : String)
  | application (name : String) (e : AppVErr)
  | dfx (e : DFXVErr)
deriving DecidableEq, Repr

/-- `validateOutputConfig`. -/
def validateOutputConfig (config : OutputConfig) : Option OutputVErr :=
  if config.outputDir = "" then some .outputDirRequired
  else if !(config.format = "iso" || config.format = "qcow2"
            || config.format = "ova" || config.format = "vma") then
    some (.invalidFormat config.format)
  else if config.imageName = "" then some .imageNameRequired
  else none

/-- `validateSysctlConfig`: the first empty parameter name is an error. -/
def validateSysctlConfig (config : SysctlConfig) : Option SysctlVErr :=
  if config.any (fun kv => kv.1 = "") then some .emptyParamName else none

/-- The role loop in `validateNodeConfig`: the first role outside
{master, worker, edge} is an error. -/
def firstInvalidRole (roles : List String) : Option String :=
  roles.find? (fun role =>
    !(role = roleMaster || role = roleWorker || role = roleEdge))

/-- The disk loop in `validateNodeConfig`. -/
def firstDiskErr (addr : String) : List DiskConfig → Option NodeVErr
  | [] => none
  | diskCfg :: rest =>
    if diskCfg.device = "" then some (.diskDeviceRequired addr)
    else if diskCfg.mountPoint ≠ "" && diskCfg.filesystem = "" then
      some (.diskFilesystemRequired addr diskCfg.device)
    else firstDiskErr addr rest

/-- The tail of `validateNodeConfig` after the authentication checks: the
`config.Port = 22` default (a write to the pointed-to `NodeConfig`,
surviving in the returned post-call value), then the port-range, role,
sysctl and disk checks. -/
def validateNodeConfigTail (config0 : NodeConfig) :
    Except NodeVErr NodeConfig :=
  let config := if config0.port = 0 then { config0 with port := 22 } else config0
  if config.port < 1 || config.port > 65535 then
    .error (.invalidPort config.address config.port)
  else if config.roles.isEmpty then .error (.rolesRequired config.address)
  else
    match firstInvalidRole config.roles with
    | some role => .error (.invalidRole config.address role)
    | none =>
      match validateSysctlConfig config.sysctlConfig with
      | some e => .error (.sysctl config.address e)
      | none =>
        match firstDiskErr config.address config.diskConfigs with
        | some e => .error e
        | none => .ok config

/-- `validateNodeConfig`. `isIP` stands for `utils.IsValidIPAddress` (a
thin wrapper over `net.ParseIP`). -/
def validateNodeConfig (isIP : String → Bool) (config : NodeConfig) :
    Except NodeVErr NodeConfig :=
  if config.address = "" then .error .addressRequired
  else if !(isIP config.address || IsValidHostname config.address) then
    .error (.invalidAddressFormat config.address)
  else if config.user = "" then .error (.userRequired config.address)
  else if config.password ≠ "" && config.privateKey ≠ "" then
    .error (.bothPasswordAndKey config.address)
  else if config.password = "" && config.privateKey = "" then
    .error (.neitherPasswordNorKey config.address)
  else validateNodeConfigTail config

/-- `validateNetworkConfig`. -/
def validateNetworkConfig (ext : StdlibOracle) (config : NetworkConfig) :
    Option NetworkVErr :=
  if config.plugin = "" then some .pluginRequired
  else if config.podCIDR ≠ "" && !(ext.parseCIDROk config.podCIDR) then
    some (.invalidPodCIDR config.podCIDR)
  else if config.serviceCIDR ≠ "" && !(ext.parseCIDROk config.serviceCIDR) then
    some (.invalidServiceCIDR config.serviceCIDR)
  else none

/-- The storage-class loop in `validateStorageConfig`. -/
def firstStorageClassErr : List StorageClassConfig → Option StorageVErr
  | [] => none
  | scCfg :: rest =>
    if scCfg.name = "" || scCfg.provisioner = "" then
      some .storageClassNameProvisionerRequired
    else firstStorageClassErr rest

/-- The PV loop in `validateStorageConfig`. -/
def firstPVErr : List PVConfig → Option StorageVErr
  | [] => none
  | pvCfg :: rest =>
    if pvCfg.name = "" || pvCfg.capacity = "" then some .pvNameCapacityRequired
    else if pvCfg.accessModes.isEmpty then
      some (.pvAccessModesRequired pvCfg.name)
    else firstPVErr rest

/-- `validateStorageConfig`. -/
def validateStorageConfig (config : StorageConfig) : Option StorageVErr :=
  match firstStorageClassErr config.storageClasses with
  | some e => some e
  | none => firstPVErr config.pvConfigs

/-- The file loop in `validateBaseOSConfig`. -/
def firstFileErr : List FileConfig → Option BaseOSVErr
  | [] => none
  | fileCfg :: rest =>
    if fileCfg.source = "" || fileCfg.dest = "" then
      some .fileSourceDestRequired
    else firstFileErr rest

/-- The user loop in `validateBaseOSConfig`. -/
def firstUserErr : List UserConfig → Option BaseOSVErr
  | [] => none
  | userCfg :: rest =>
    if userCfg.name = "" then some .userNameRequired else firstUserErr rest

/-- `validateBaseOSConfig`. -/
def validateBaseOSConfig (config : BaseOSConfig) : Option BaseOSVErr :=
  if config.image = "" then some .imageRequired
  else
    match validateSysctlConfig config.sysctlConfig with
    | some e => some (.sysctl e)
    | none =>
      match firstFileErr config.files with
      | some e => some e
      | none => firstUserErr config.users

/-- The node loop in `validateClusterConfig`: each iteration validates a
loop-local copy of the list element (Go `for _, nodeCfg := range`), so
the possibly port-defaulted copy returned by `validateNodeConfig` is
dropped at the end of the iteration; the loop also accumulates whether
some node carries the master role. -/
def validateNodesLoop (isIP : String → Bool) :
    List NodeConfig → Bool → Except ClusterVErr Bool
  | [], hasMaster => .ok hasMaster
  | nodeCfg :: rest, hasMaster =>
    match validateNodeConfig isIP nodeCfg with
    | .error e => .error (.node nodeCfg.address e)
    | .ok _updatedCopy =>
      validateNodesLoop isIP rest
        (hasMaster || nodeCfg.roles.any (fun role => role = roleMaster))

/-- `validateClusterConfig`. No write through the `*ClusterConfig`
argument happens in the source, so the post-call value in the `ok` case
is the input. -/
def validateClusterConfig (ext : StdlibOracle) (config : ClusterConfig) :
    Except ClusterVErr ClusterConfig :=
  if config.name = "" then .error .nameRequired
  else if config.kubernetesVersion = "" then .error .kubernetesVersionRequired
  else
    match validateNetworkConfig ext config.network with
    | some e => .error (.network e)
    | none =>
      match validateStorageConfig config.storage with
      | some e => .error (.storage e)
      | none =>
        if config.nodes.isEmpty then .error .nodesRequired
        else
          match validateNodesLoop ext.isValidIPAddress config.nodes false with
          | .error e => .error e
          | .ok hasMaster =>
            if !hasMaster then .error .noMasterRole
            else
              match validateBaseOSConfig config.baseOS with
              | some e => .error (.baseOS e)
              | none => .ok config

/-- `validateVClusterConfig` (the host Kubernetes version argument is only
used by commented-out TODO checks in the source). -/
def validateVClusterConfig (ext : StdlibOracle) (name : String)
    (config : VClusterConfig) (_hostK8sVersion : String) :
    Option VClusterVErr :=
  if config.name = "" then some .nameRequired
  else if config.name ≠ name then some (.nameMismatch config.name name)
  else if config.«namespace» = "" then some (.namespaceRequired name)
  else if config.kubernetesVersion = "" then
    some (.kubernetesVersionRequired name)
  else if config.serviceCIDR ≠ "" && !(ext.parseCIDROk config.serviceCIDR) then
    some (.invalidServiceCIDR name config.serviceCIDR)
  else if config.podCIDR ≠ "" && !(ext.parseCIDROk config.podCIDR) then
    some (.invalidPodCIDR name config.podCIDR)
  else
    match config.network with
    | some networkCfg =>
      match validateNetworkConfig ext networkCfg with
      | some e => some (.network name e)
      | none =>
        match config.storage with
        | some storageCfg =>
          (validateStorageConfig storageCfg).map (.storage name ·)
        | none => none
    | none =>
      match config.storage with
      | some storageCfg =>
        (validateStorageConfig storageCfg).map (.storage name ·)
      | none => none

/-- The manifest-path loop and the manifest-source count at the end of
`validateApplicationConfig`. -/
def validateAppManifests (config : ApplicationConfig) :
    Except AppVErr ApplicationConfig :=
  if config.manifests.any (fun p => p = "") then
    .error (.emptyManifestPath config.name)
  else
    let manifestSources :=
      (if config.helmChart.isSome then 1 else 0)
        + (if config.kustomize.isSome then 1 else 0)
        + (if config.manifests.length > 0 then 1 else 0)
    if manifestSources > 1 then
      .error (.multipleManifestSources config.name)
    else .ok config

/-- The kustomize branch of `validateApplicationConfig`, after the
helm-chart branch. -/
def validateAppSources (config : ApplicationConfig) :
    Except AppVErr ApplicationConfig :=
  match config.kustomize with
  | some k =>
    if k.path = "" then .error (.kustomizePathRequired config.name)
    else validateAppManifests config
  | none => validateAppManifests config

/-- `validateApplicationConfig`. The `config.Namespace = "default"`
default is a write to the pointed-to `ApplicationConfig`; the post-call
value is returned in the `ok` case. -/
def validateApplicationConfig (name : String) (config0 : ApplicationConfig) :
    Except AppVErr ApplicationConfig :=
  if config0.name = "" then .error .nameRequired
  else if config0.name ≠ name then .error (.nameMismatch config0.name name)
  else if config0.vclusterName = "" then
    .error (.vclusterNameRequired config0.name)
  else
    let config :=
      if config0.«namespace» = "" then { config0 with «namespace» := "default" }
      else config0
    if !(config.typ = "compute-bound" || config.typ = "io-bound"
         || config.typ = "memory-bound" || config.typ = "network-bound"
         || config.typ = "general") then
      .error (.invalidType config.name config.typ)
    else if config.helmChart = none && config.kustomize = none
            && config.manifests.length = 0 then
      .error (.noManifestSource config.name)
    else
      match config.helmChart with
      | some hc =>
        if hc.chart = "" || hc.releaseName = "" then
          .error (.helmChartIncomplete config.name)
        else validateAppSources config
      | none => validateAppSources config

/-- `validateDFXConfig`. -/
def validateDFXConfig (ext : StdlibOracle) (config : DFXConfig) :
    Option DFXVErr :=
  if config.logging.enabled && config.logging.agent = "" then
    some .loggingAgentRequired
  else if config.logging.enabled && config.logging.output.typ = "" then
    some .loggingOutputTypeRequired
  else if config.metrics.enabled && config.metrics.agent = "" then
    some .metricsAgentRequired
  else if config.tracing.enabled && config.tracing.agent = "" then
    some .tracingAgentRequired
  else if config.tracing.enabled && config.tracing.endpoint = "" then
    some .tracingEndpointRequired
  else if config.healthz.enabled && config.healthz.interval ≠ ""
          && !(ext.parseDurationOk config.healthz.interval) then
    some (.invalidHealthzInterval config.healthz.interval)
  else if config.healthz.enabled && config.healthz.timeout ≠ ""
          && !(ext.parseDurationOk config.healthz.timeout) then
    some (.invalidHealthzTimeout config.healthz.timeout)
  else if config.reliability.configBackup.enabled
          && config.reliability.configBackup.location = "" then
    some .configBackupLocationRequired
  else if config.reliability.etcdBackup.enabled
          && config.reliability.etcdBackup.location = "" then
    some .etcdBackupLocationRequired
  else none

/-- The vcluster loop in `ValidateConfig` (a Go `for name, vclusterCfg :=
range` over the map: the entry is copied, never written back). -/
def validateVClustersLoop (ext : StdlibOracle) (hostK8sVersion : String) :
    List (String × VClusterConfig) → Option PlatformVErr
  | [] => none
  | (name, vclusterCfg) :: rest =>
    match validateVClusterConfig ext name vclusterCfg hostK8sVersion with
    | some e => some (.vcluster name e)
    | none => validateVClustersLoop ext hostK8sVersion rest

/-- The application loop in `ValidateConfig`: the target-vcluster
existence check, then `validateApplicationConfig` on the loop-local copy
of the entry; the possibly namespace-defaulted copy is dropped at the end
of the iteration. -/
def validateApplicationsLoop (vclusters : List (String × VClusterConfig)) :
    List (String × ApplicationConfig) → Option PlatformVErr
  | [] => none
  | (name, appCfg) :: rest =>
    if !(vclusters.any (fun kv => kv.1 = appCfg.vclusterName)) then
      some (.appTargetsMissingVCluster name appCfg.vclusterName)
    else
      match validateApplicationConfig name appCfg with
      | .error e => some (.application name e)
      | .ok _updatedCopy => validateApplicationsLoop vclusters rest

/-- `ValidateConfig`. The Go function receives `*PlatformConfig`; the
`ok` value is the post-call value of the pointed-to config, assembled
from the post-call values of the fields whose addresses were passed down
(only `validateClusterConfig` both receives a field pointer and calls
mutating validators, and those run on loop-local copies). The Go
nil-pointer guard has no counterpart here because the config is a value. -/
def ValidateConfig (ext : StdlibOracle) (config : PlatformConfig) :
    Except PlatformVErr PlatformConfig :=
  if config.metadata.name = "" then .error .metadataNameRequired
  else
    match validateOutputConfig config.output with
    | some e => .error (.output e)
    | none =>
      match validateClusterConfig ext config.cluster with
      | .error e => .error (.cluster e)
      | .ok clusterPost =>
        match validateSysctlConfig config.sysctlConfig with
        | some e => .error (.sysctl e)
        | none =>
          match validateVClustersLoop ext config.cluster.kubernetesVersion
              config.vclusters with
          | some e => .error e
          | none =>
            match validateApplicationsLoop config.vclusters
                config.applications with
            | some e => .error e
            | none =>
              match validateDFXConfig ext config.dfxConfig with
              | some e => .error (.dfx e)
              | none => .ok { config with cluster := clusterPost }

/-! ## VCluster client resolver (`pkg/vcluster/client/client.go`) -/

/-- A Kubernetes secret's `Data` map (payloads as strings). -/
structure K8sSecret where
  data : List (String × String)
deriving DecidableEq, Repr

/-- The Host-cluster state read by the client resolver: secrets indexed by
(namespace, name). -/
structure HostState where
  secrets : List ((String × String) × K8sSecret)
deriving DecidableEq, Repr

/-- `Secrets(ns).Get(name)`: `none` models the Kubernetes not-found
error. -/
def getSecret (st : HostState) (ns nm : String) : Option K8sSecret :=
  (st.secrets.find? (fun kv => kv.1 = (ns, nm))).map (fun kv => kv.2)

/-- The `rest.Config` assembled by `GetVClusterClient`: endpoint
(`Host`), CA bundle (`TLSClientConfig.CAData`) and bearer token (the
empty string models an unset `BearerToken`). -/
structure RestConfig where
  host : String
  caData : String
  bearerToken : String
deriving DecidableEq, Repr

/-- The fixed namespace convention in `GetVClusterClient`
(`fmt.Sprintf("vcluster-%s", vclusterName)`). -/
def clientHostNamespace (vclusterName : String) : String :=
  "vcluster-" ++ vclusterName

/-- The in-cluster DNS endpoint built by `GetVClusterClient`
(`https://<service>.<namespace>.svc.cluster.local:443`, the service name
being the vcluster name). -/
def vclusterAPIServerURL (vclusterName : String) : String :=
  "https://" ++ vclusterName ++ "." ++ clientHostNamespace vclusterName
    ++ ".svc.cluster.local:443"

/-- The certs-secret name convention (`"<name>-certs"`). -/
def certsSecretName (vclusterName : String) : String :=
  vclusterName ++ "-certs"

/-- `GetVClusterClient` from `pkg/vcluster/client/client.go`: derive the
host namespace and service URL, fetch the certs secret, require a
non-empty `ca.crt` entry, and build the client config from endpoint and
CA. The token-secret logic in the source is entirely commented out: no
token secret is read and `BearerToken` is never set
(`kubernetes.NewForConfig` on the resulting config is modelled as
succeeding). -/
def GetVClusterClient (st : HostState) (vclusterName : String) :
    Except CbError RestConfig :=
  let hostNamespace := clientHostNamespace vclusterName
  match getSecret st hostNamespace (certsSecretName vclusterName) with
  | none =>
    .error (errWithCause .vcluster
      ("failed to get vcluster certs secret '" ++ hostNamespace ++ "/"
        ++ certsSecretName vclusterName ++ "'")
      (errNew .notFound "secret not found"))
  | some certsSecret =>
    match certsSecret.data.find? (fun kv => kv.1 = "ca.crt") with
    | none =>
      .error (errNew .vcluster
        ("vcluster CA certificate not found in secret '" ++ hostNamespace
          ++ "/" ++ certsSecretName vclusterName ++ "'"))
    | some kv =>
      if kv.2 = "" then
        .error (errNew .vcluster
          ("vcluster CA certificate not found in secret '" ++ hostNamespace
            ++ "/" ++ certsSecretName vclusterName ++ "'"))
      else
        .ok { host := vclusterAPIServerURL vclusterName
              caData := kv.2, bearerToken := "" }

/-! ## VCluster manager (`pkg/vcluster/manager.go`)

The manager's Kubernetes side effects are modelled on an explicit state:
the list of Host namespaces. The readiness poll consumes a time-indexed
oracle for the deployment `Get` outcome at each attempt. -/

/-- The deployment status fields read by the readiness poll
(`Status.ReadyReplicas`, `Status.Replicas`, Go `int32`). -/
structure DeploymentStatus where
  readyReplicas : Int
  replicas : Int
deriving DecidableEq, Repr

/-- The outcome of one `Deployments(ns).Get` call during polling. -/
inductive GetDeployResult where
  | notFound
  | apiError (e : CbError)
  | found (st : DeploymentStatus)
deriving Repr

/-- Outcome of a `wait.PollUntilContextTimeout` loop. -/
inductive PollResult where
  | ready
  | aborted (e : CbError)
  | timedOut
deriving Repr

/-- `wait.ErrWaitTimeout`, the error a timed-out poll reports. -/
def waitTimeoutErr : CbError :=
  errNew .timeout "timed out waiting for the condition"

/-- The poll interval used throughout `manager.go` (`5*time.Second`). -/
def pollIntervalSeconds : Nat := 5

/-- The poll deadline used throughout `manager.go` (`5*time.Minute`). -/
def pollTimeoutSeconds : Nat := 300

/-- Number of condition evaluations within the deadline. -/
def pollAttempts : Nat := pollTimeoutSeconds / pollIntervalSeconds

/-- The readiness poll inside `defaultManager.Create`: not-found retries,
any other `Get` error aborts, and a found deployment ends the wait
exactly when `ReadyReplicas > 0 && ReadyReplicas >= Replicas`. -/
def createPoll (env : Nat → GetDeployResult) : Nat → Nat → PollResult
  | 0, _ => .timedOut
  | fuel+1, t =>
    match env t with
    | .notFound => createPoll env fuel (t+1)
    | .apiError e => .aborted e
    | .found st =>
      if st.readyReplicas > 0 && st.readyReplicas ≥ st.replicas then .ready
      else createPoll env fuel (t+1)

/-- The message of the error `defaultManager.Create` returns when the
poll fails (`"vcluster deployment '%s' timed out or failed to become
ready in host namespace '%s'"`). -/
def createTimeoutMsg (config : VClusterConfig) : String :=
  "vcluster deployment '" ++ config.name
    ++ "' timed out or failed to become ready in host namespace '"
    ++ config.«namespace» ++ "'"

/-- `defaultManager.Create`: ensure the host namespace `config.Namespace`
(an already-exists error is tolerated), apply the control-plane
manifests (a placeholder sleep in the source), then poll the deployment
named `config.Name` in `config.Namespace`. Returns the Go error and the
post-state of the Host namespaces. -/
def managerCreate (namespaces : List String) (env : Nat → GetDeployResult)
    (config : VClusterConfig) : Option CbError × List String :=
  let namespaces' :=
    if config.«namespace» ∈ namespaces then namespaces
    else namespaces ++ [config.«namespace»]
  match createPoll env pollAttempts 0 with
  | .ready => (none, namespaces')
  | .aborted e =>
    (some (errWithCause .vcluster (createTimeoutMsg config) e), namespaces')
  | .timedOut =>
    (some (errWithCause .vcluster (createTimeoutMsg config) waitTimeoutErr),
      namespaces')

/-- The fixed namespace convention in `defaultManager.Delete`
(`fmt.Sprintf("vcluster-%s", name)`). -/
def deleteHostNamespace (name : String) : String := "vcluster-" ++ name

/-- The message of the error `defaultManager.Delete` returns when the
deletion poll fails. -/
def deleteTimeoutMsg (name : String) : String :=
  "host namespace '" ++ deleteHostNamespace name ++ "' for vcluster '"
    ++ name ++ "' did not fully delete within timeout"

/-- The namespace-deletion poll inside `defaultManager.Delete`: a `Get`
answered with not-found ends the wait. (In this state model the deletion
issued before the poll is already effective, so the poll observes a fixed
state.) -/
def deletePoll (namespaces : List String) (ns : String) : Nat → PollResult
  | 0 => .timedOut
  | fuel+1 =>
    if ns ∈ namespaces then deletePoll namespaces ns fuel else .ready

/-- `defaultManager.Delete`: derive the namespace by the fixed
convention, delete it (a not-found is tolerated), then poll until a `Get`
reports not-found. -/
def managerDelete (namespaces : List String) (name : String) :
    Option CbError × List String :=
  let ns := deleteHostNamespace name
  let namespaces' := namespaces.filter (fun n => n ≠ ns)
  match deletePoll namespaces' ns pollAttempts with
  | .ready => (none, namespaces')
  | .aborted e =>
    (some (errWithCause .vcluster (deleteTimeoutMsg name) e), namespaces')
  | .timedOut =>
    (some (errWithCause .vcluster (deleteTimeoutMsg name) waitTimeoutErr),
      namespaces')

/-- A retryable poll outcome at attempt `t`: not-found, or a deployment
that is not yet ready. -/
def createRetryAt (env : Nat → GetDeployResult) (t : Nat) : Prop :=
  match env t with
  | .notFound => True
  | .apiError _ => False
  | .found st =>
    ¬((st.readyReplicas > 0 && st.readyReplicas ≥ st.replicas) = true)

/-- A ready poll outcome at attempt `t`. -/
def createReadyAt (env : Nat → GetDeployResult) (t : Nat) : Prop :=
  match env t with
  | .found st => (st.readyReplicas > 0 && st.readyReplicas ≥ st.replicas) = true
  | _ => False

/-! ## Deployment phases and orchestrator (`defaultDeployer.Deploy` and
`defaultVClusterDeployPhase.Run` from the deployer/phases files)

The per-node phases execute remote commands; their outcomes are oracle
parameters. `Deploy` is modelled together with a trace of phase
invocations, one event per `Run` call. -/

/-- The five per-node phases `Deploy` runs before the cluster-wide
ones. -/
inductive PNPhase where
  | initialization
  | osConfig
  | runtimeConfig
  | networkConfig
  | storageConfig
deriving DecidableEq, Repr

/-- Pipeline position of each per-node phase (1-based, as in the spec's
"phases 1-7"). -/
def PNPhase.idx : PNPhase → Nat
  | .initialization => 1
  | .osConfig => 2
  | .runtimeConfig => 3
  | .networkConfig => 4
  | .storageConfig => 5

/-- The message templates `Deploy` wraps a failing phase with
(`fmt.Sprintf("... phase failed for node %s", nodeCfg.Address)`). -/
def phaseFailMsg : PNPhase → String
  | .initialization => "initialization phase failed for node "
  | .osConfig => "OS configuration phase failed for node "
  | .runtimeConfig => "runtime configuration phase failed for node "
  | .networkConfig => "network configuration phase failed for node "
  | .storageConfig => "storage configuration phase failed for node "

/-- The System-domain wrap `Deploy` applies to a per-node phase error. -/
def phaseWrap (k : PNPhase) (node : NodeConfig) (e : CbError) : CbError :=
  errWithCause .system (phaseFailMsg k ++ node.address) e

/-- External behavior of the phases: each per-node phase `Run`, the
cluster-wide `K8sInstall.Run`, and the vcluster manager operations the
vcluster phase invokes (`Create`, `WaitForReady`). -/
structure PhaseOracle where
  run : PNPhase → NodeConfig → Option CbError
  k8sInstall : List NodeConfig → Option CbError
  vcreate : VClusterConfig → Option CbError
  vwaitForReady : String → Option CbError

/-- Trace events: one per phase `Run` invocation. -/
inductive DeployEvent where
  | phase (k : PNPhase) (node : NodeConfig)
  | k8sInstall
  | vclusterPhase
deriving DecidableEq, Repr

/-- Pipeline position of an event. -/
def DeployEvent.idx : DeployEvent → Nat
  | .phase k _ => k.idx
  | .k8sInstall => 6
  | .vclusterPhase => 7

/-- One per-node loop of `Deploy` (`for i, nodeCfg := range
config.Cluster.Nodes`): run the phase on each node in order, stopping at
the first error, which is wrapped as a System error naming the node. -/
def runPhaseNodes (po : PhaseOracle) (k : PNPhase) :
    List NodeConfig → Option CbError × List DeployEvent
  | [] => (none, [])
  | node :: rest =>
    match po.run k node with
    | some e => (some (phaseWrap k node e), [.phase k node])
    | none =>
      let r := runPhaseNodes po k rest
      (r.1, .phase k node :: r.2)

/-- The five per-node loops of `Deploy`, in source order. -/
def perNodePhases : List PNPhase :=
  [.initialization, .osConfig, .runtimeConfig, .networkConfig, .storageConfig]

/-- The per-node portion of `Deploy`: the source's five sequential loops,
written as a fold over `perNodePhases`. A loop failure aborts the rest. -/
def runPhases (po : PhaseOracle) (nodes : List NodeConfig) :
    List PNPhase → Option CbError × List DeployEvent
  | [] => (none, [])
  | k :: ks =>
    let r := runPhaseNodes po k nodes
    match r.1 with
    | some e => (some e, r.2)
    | none =>
      let rest := runPhases po nodes ks
      (rest.1, r.2 ++ rest.2)

/-- The per-tenant loop of `defaultVClusterDeployPhase.Run`: `Create`
then `WaitForReady` per tenant, aborting the whole phase on the first
failure with a VCluster wrap naming the tenant. -/
def vclusterTenantsLoop (po : PhaseOracle) :
    List (String × VClusterConfig) → Option CbError
  | [] => none
  | (name, vclusterCfg) :: rest =>
    match po.vcreate vclusterCfg with
    | some e =>
      some (errWithCause .vcluster
        ("failed to deploy vcluster '" ++ name ++ "'") e)
    | none =>
      match po.vwaitForReady name with
      | some e =>
        some (errWithCause .vcluster
          ("vcluster '" ++ name ++ "' did not become ready") e)
      | none => vclusterTenantsLoop po rest

/-- `defaultVClusterDeployPhase.Run`: the `kubernetes.Interface` type
assertion on the `interface{}` host client comes first, then the
empty-tenant short-circuit ("skipping vcluster deployment"), then the
per-tenant loop. The `Option Unit` argument models the Go `interface{}`:
`none` is a value failing the assertion — in particular the nil
placeholder `Deploy` passes. -/
def vclusterDeployPhaseRun (po : PhaseOracle) (config : PlatformConfig)
    (hostK8sClient : Option Unit) : Option CbError :=
  match hostK8sClient with
  | none =>
    some (errNew .internal
      "invalid Host Kubernetes client provided for vcluster deployment")
  | some _ =>
    if config.vclusters.length = 0 then none
    else vclusterTenantsLoop po config.vclusters

/-- `defaultDeployer.Deploy`: phases 1-5 per node in order, then the
cluster-wide `K8sInstall`, then the vcluster phase — invoked with the
source's nil placeholder host client (`var hostK8sClient interface{}`).
Failures are wrapped as in the source and abort the run. Returns the Go
error and the trace of phase invocations. -/
def deploy (po : PhaseOracle) (config : PlatformConfig) :
    Option CbError × List DeployEvent :=
  let r := runPhases po config.cluster.nodes perNodePhases
  match r.1 with
  | some e => (some e, r.2)
  | none =>
    match po.k8sInstall config.cluster.nodes with
    | some e =>
      (some (errWithCause .system
          "Kubernetes Host Cluster installation phase failed" e),
        r.2 ++ [.k8sInstall])
    | none =>
      match vclusterDeployPhaseRun po config none with
      | some e =>
        (some (errWithCause .vcluster "vcluster deployment phase failed" e),
          r.2 ++ [.k8sInstall, .vclusterPhase])
      | none => (none, r.2 ++ [.k8sInstall, .vclusterPhase])

/-! ## Lifecycle manager (`defaultManager` of the lifecycle file) -/

/-- Scaling trace events: one per `AddNode` / `RemoveNode` invocation on
the platform deployer. -/
inductive ScaleEvent where
  | addNode (node : NodeConfig)
  | removeNode (node : NodeConfig)
deriving DecidableEq, Repr

/-- The platform deployer operations `ScaleHostCluster` invokes. The
default deployer's `RemoveNode` (drain, delete, OS reset are placeholder
logs in the source) always returns nil. -/
structure ScaleDeployer where
  addNode : NodeConfig → Option CbError
  removeNode : NodeConfig → Option CbError

/-- `defaultDeployer.RemoveNode`: drain / cluster delete / OS cleanup are
placeholder logs; it returns nil for every node. -/
def defaultRemoveNode (_node : NodeConfig) : Option CbError := none

/-- The `nodesToAdd` loop of `ScaleHostCluster`. -/
def scaleAddLoop (sd : ScaleDeployer) :
    List NodeConfig → Option CbError × List ScaleEvent
  | [] => (none, [])
  | node :: rest =>
    match sd.addNode node with
    | some e =>
      (some (errWithCause .system ("failed to add node " ++ node.address) e),
        [.addNode node])
    | none =>
      let r := scaleAddLoop sd rest
      (r.1, .addNode node :: r.2)

/-- The `nodesToRemove` loop of `ScaleHostCluster`. -/
def scaleRemoveLoop (sd : ScaleDeployer) :
    List NodeConfig → Option CbError × List ScaleEvent
  | [] => (none, [])
  | node :: rest =>
    match sd.removeNode node with
    | some e =>
      (some (errWithCause .system
          ("failed to remove node " ++ node.address) e),
        [.removeNode node])
    | none =>
      let r := scaleRemoveLoop sd rest
      (r.1, .removeNode node :: r.2)

/-- `defaultManager.ScaleHostCluster`: add every node in `nodesToAdd`
(aborting on the first failure), then remove every node in
`nodesToRemove` (aborting on the first failure), then return nil. No
quorum or master-set check of any kind is performed on `nodesToRemove`.
Returns the Go error and the trace of deployer invocations. -/
def scaleHostCluster (sd : ScaleDeployer) (_config : PlatformConfig)
    (nodesToAdd nodesToRemove : List NodeConfig) :
    Option CbError × List ScaleEvent :=
  let ra := scaleAddLoop sd nodesToAdd
  match ra.1 with
  | some e => (some e, ra.2)
  | none =>
    let rr := scaleRemoveLoop sd nodesToRemove
    match rr.1 with
    | some e => (some e, ra.2 ++ rr.2)
    | none => (none, ra.2 ++ rr.2)

/-! ## Sample inputs for closed instances -/

/-- A sample standard-library oracle: exactly the string `"10.0.0.1"`
parses as an IP, no CIDRs or durations parse. -/
def extSample : StdlibOracle :=
  { isValidIPAddress := fun s => s == "10.0.0.1"
    parseCIDROk := fun _ => false
    parseDurationOk := fun _ => false }

/-- A valid master node whose `Port` is left at `0`. -/
def nodeSample : NodeConfig :=
  { address := "10.0.0.1", user := "root", password := "pw", privateKey := ""
    port := 0, roles := [roleMaster], sysctlConfig := [], diskConfigs := [] }

/-- The loop-local copy of `nodeSample` after `validateNodeConfig`
defaults the port. -/
def nodeSamplePost : NodeConfig := { nodeSample with port := 22 }

/-- A node declaring both a password and a private key. -/
def nodeBothAuth : NodeConfig := { nodeSample with privateKey := "/id_rsa" }

/-- A node declaring neither a password nor a private key. -/
def nodeNoAuth : NodeConfig := { nodeSample with password := "" }

/-- A node whose address is neither a valid IP nor a valid hostname
(underscore and bang are outside the hostname character class). -/
def nodeBadAddress : NodeConfig := { nodeSample with address := "bad_host!" }

/-- A valid application entry with an empty namespace. -/
def appSample : ApplicationConfig :=
  { name := "app-a", vclusterName := "v1", «namespace» := ""
    typ := "general"
    helmChart := some { chart := "bitnami/x", repo := "", version := ""
                        releaseName := "x" }
    kustomize := none, manifests := [] }

/-- A valid vcluster entry whose namespace differs from the
`vcluster-<name>` convention. -/
def vclusterSample : VClusterConfig :=
  { name := "v1", «namespace» := "backend-ns", kubernetesVersion := "v1.28.0"
    serviceCIDR := "", podCIDR := "", network := none, storage := none }

/-- A platform configuration accepted by `ValidateConfig` under
`extSample`, containing `nodeSample` (port 0) and `appSample` (empty
namespace). -/
def platformSample : PlatformConfig :=
  { metadata := { name := "platform-sample" }
    cluster :=
      { name := "host", kubernetesVersion := "v1.28.0"
        containerRuntime := "containerd"
        network := { plugin := "calico", podCIDR := "", serviceCIDR := "" }
        storage := { defaultStorageClass := "", storageClasses := []
                     pvConfigs := [] }
        nodes := [nodeSample]
        baseOS := { image := "ubuntu:22.04", sysctlConfig := [], files := []
                    users := [] } }
    vclusters := [("v1", vclusterSample)]
    applications := [("app-a", appSample)]
    sysctlConfig := []
    output := { format := "iso", outputDir := "/out", imageName := "img" }
    dfxConfig :=
      { logging := { enabled := false, agent := ""
                     output := { typ := "", endpoint := "" } }
        metrics := { enabled := false, agent := "", scrapeConfigs := [] }
        tracing := { enabled := false, agent := "", endpoint := "" }
        healthz := { enabled := false, interval := "", timeout := "" }
        reliability :=
          { configBackup := { enabled := false, schedule := "", location := "" }
            etcdBackup := { enabled := false, schedule := "", location := "" } } } }

/-- The tenant of the spec scenario: `name="biz-a",
namespace="vcluster-biz-a"`. -/
def vclusterBizA : VClusterConfig :=
  { name := "biz-a", «namespace» := "vcluster-biz-a"
    kubernetesVersion := "v1.28.0", serviceCIDR := "", podCIDR := ""
    network := none, storage := none }

/-- A Host state holding the tenant's certs secret (non-empty CA) and no
token secret of any kind. -/
def hostStateNoToken : HostState :=
  { secrets := [(("vcluster-biz-a", "biz-a-certs"),
                 { data := [("ca.crt", "CERTDATA")] })] }

/-- A Host state with no secrets at all. -/
def hostStateEmpty : HostState := { secrets := [] }

/-- A phase oracle on which every phase and manager operation
succeeds. -/
def allOkOracle : PhaseOracle :=
  { run := fun _ _ => none
    k8sInstall := fun _ => none
    vcreate := fun _ => none
    vwaitForReady := fun _ => none }

/-- An oracle failing exactly in phase 3 (RuntimeConfig) on every node. -/
def failRuntimeOracle : PhaseOracle :=
  { run := fun k _ =>
      if k = PNPhase.runtimeConfig then
        some (errNew .system "runtime start failed")
      else none
    k8sInstall := fun _ => none
    vcreate := fun _ => none
    vwaitForReady := fun _ => none }

/-- The claim scenario for Deploy: one master node, zero vclusters. -/
def platformC1 : PlatformConfig :=
  { platformSample with vclusters := [], applications := [] }

/-- Three master nodes. -/
def master2 : NodeConfig := { nodeSample with address := "10.0.0.2" }

def master3 : NodeConfig := { nodeSample with address := "10.0.0.3" }

/-- A platform whose Host cluster consists of exactly three masters. -/
def platformThreeMasters : PlatformConfig :=
  { platformC1 with cluster :=
      { platformC1.cluster with nodes := [nodeSample, master2, master3] } }

/-- The deployer operations as implemented by `defaultDeployer`:
`RemoveNode` is the placeholder that always returns nil; `AddNode` is
not exercised by the scenario below. -/
def defaultScaleDeployer : ScaleDeployer :=
  { addNode := fun _ => none
    removeNode := defaultRemoveNode }

/-- Sample health-check results used by closed instances of the
aggregation claim. -/
def resHealthy : HealthCheckResult := ⟨"comp-a", "Healthy", "", ""⟩

def resDegraded : HealthCheckResult := ⟨"comp-b", "Degraded", "", ""⟩

def resUnhealthy : HealthCheckResult := ⟨"comp-c", "Unhealthy", "", ""⟩

/-! ## Theorems -/

/-- Characterization of the aggregation loop. -/
theorem determineOverallStatusLoop_eq (rs : List HealthCheckResult) (b : Bool) :
    determineOverallStatusLoop rs b =
      (if rs.any (fun r => r.status = "Unhealthy") then "Unhealthy"
       else if b || rs.any (fun r => r.status = "Degraded") then "Degraded"
       else "Healthy") := by
  induction rs generalizing b with
  | nil => simp [determineOverallStatusLoop]
  | cons r rs ih =>
    by_cases hu : r.status = "Unhealthy"
    · simp [determineOverallStatusLoop, hu]
    · by_cases hd : r.status = "Degraded" <;>
        simp [determineOverallStatusLoop, hu, hd, ih, Bool.or_assoc, Bool.or_comm]

theorem any_eq_of_perm {α : Type} (p : α → Bool) {l₁ l₂ : List α}
    (h : l₁.Perm l₂) : l₁.any p = l₂.any p := by
  induction h with
  | nil => rfl
  | cons x _ ih => simp [List.any_cons, ih]
  | swap x y l =>
    simp [List.any_cons, ← Bool.or_assoc, Bool.or_comm (p y) (p x)]
  | trans _ _ ih₁ ih₂ => exact ih₁.trans ih₂

/-- C7: For every finite list of health-check results, the aggregated
overall status is `Unhealthy` if any result has status `Unhealthy`, else
`Degraded` if any result has status `Degraded`, else `Healthy`; the empty
list yields `Healthy`, `{Healthy, Degraded}` yields `Degraded`,
`{Healthy, Unhealthy, Degraded}` yields `Unhealthy`, and the outcome is
independent of result order. -/
theorem healthz_overall_status_spec :
    (∀ rs : List HealthCheckResult,
        (determineOverallStatus rs).status =
          (if rs.any (fun r => r.status = "Unhealthy") then "Unhealthy"
           else if rs.any (fun r => r.status = "Degraded") then "Degraded"
           else "Healthy"))
    ∧ (∀ rs₁ rs₂ : List HealthCheckResult, rs₁.Perm rs₂ →
        (determineOverallStatus rs₁).status = (determineOverallStatus rs₂).status)
    ∧ (determineOverallStatus []).status = "Healthy"
    ∧ (determineOverallStatus [resHealthy, resDegraded]).status = "Degraded"
    ∧ (determineOverallStatus [resHealthy, resUnhealthy, resDegraded]).status
        = "Unhealthy" := by
  have key : ∀ rs : List HealthCheckResult,
      (determineOverallStatus rs).status =
        (if rs.any (fun r => r.status = "Unhealthy") then "Unhealthy"
         else if rs.any (fun r => r.status = "Degraded") then "Degraded"
         else "Healthy") := by
    intro rs
    simp [determineOverallStatus, determineOverallStatusLoop_eq]
  refine ⟨key, ?_, by decide, by decide, by decide⟩
  intro rs₁ rs₂ h
  rw [key, key, any_eq_of_perm _ h, any_eq_of_perm _ h]

/-- Witness for C7: concrete aggregations, including order-independence of
a two-element result list, obtained from `healthz_overall_status_spec`. -/
theorem healthz_overall_status_spec_witness :
    (determineOverallStatus [resHealthy, resDegraded]).status
        = (determineOverallStatus [resDegraded, resHealthy]).status
    ∧ (determineOverallStatus []).status = "Healthy"
    ∧ (determineOverallStatus [resHealthy, resUnhealthy, resDegraded]).status
        = "Unhealthy" :=
  ⟨healthz_overall_status_spec.2.1 _ _ (List.Perm.swap _ _ _),
   healthz_overall_status_spec.2.2.1,
   healthz_overall_status_spec.2.2.2.2⟩

theorem isValidHostname_empty : IsValidHostname "" = false := by decide

/-- Every error produced by the disk loop is one of the two disk error
constructors. -/
theorem firstDiskErr_image (addr : String) (l : List DiskConfig) :
    ∀ e : NodeVErr, firstDiskErr addr l = some e →
      e = .diskDeviceRequired addr
        ∨ ∃ d, e = .diskFilesystemRequired addr d := by
  induction l with
  | nil => simp [firstDiskErr]
  | cons d rest ih =>
    intro e h
    simp only [firstDiskErr] at h
    split at h
    · exact Or.inl (by injection h with h0; exact h0.symm)
    · split at h
      · exact Or.inr ⟨d.device, by injection h with h0; exact h0.symm⟩
      · exact ih e h

/-- Every error produced by the post-auth tail of `validateNodeConfig` is
neither of the two address errors. -/
theorem validateNodeConfigTail_error_shape (c : NodeConfig) :
    ∀ e, validateNodeConfigTail c = .error e →
      e ≠ .addressRequired ∧ ∀ a, e ≠ .invalidAddressFormat a := by
  intro e he
  simp only [validateNodeConfigTail] at he
  repeat' split at he
  all_goals try (cases he)
  all_goals try (constructor <;> simp)
  all_goals rename_i hfd
  all_goals rcases firstDiskErr_image _ _ _ hfd with hsh | ⟨d, hsh⟩
  all_goals subst hsh
  all_goals simp

/-- The tail applies the port-22 default to its copy. -/
theorem validateNodeConfigTail_ok_port (c c' : NodeConfig) :
    validateNodeConfigTail c = .ok c' → c.port = 0 → c'.port = 22 := by
  intro h hp
  simp only [validateNodeConfigTail] at h
  rw [if_pos hp] at h
  repeat' split at h
  all_goals (cases h <;> rfl)

/-- C8: For all NodeConfig, `validateNodeConfig` accepts the `Address`
field (does not return an address error) iff the address is a valid IP
address (per `IsValidIPAddress`, i.e. `net.ParseIP`) or a valid hostname
(per `IsValidHostname`), and it returns a Validation error whenever both
`Password` and `PrivateKey` are non-empty, and whenever both are empty. -/
theorem validateNodeConfig_address_auth_spec :
    ∀ (isIP : String → Bool) (cfg : NodeConfig), isIP "" = false →
      (((validateNodeConfig isIP cfg ≠ .error .addressRequired)
          ∧ ∀ a, validateNodeConfig isIP cfg ≠ .error (.invalidAddressFormat a))
        ↔ (isIP cfg.address || IsValidHostname cfg.address) = true)
      ∧ (cfg.password ≠ "" → cfg.privateKey ≠ "" →
          ∃ e, validateNodeConfig isIP cfg = .error e)
      ∧ (cfg.password = "" → cfg.privateKey = "" →
          ∃ e, validateNodeConfig isIP cfg = .error e) := by
  intro isIP cfg hempty
  refine ⟨⟨?_, ?_⟩, ?_, ?_⟩
  · rintro ⟨h1, h2⟩
    by_contra hv
    have hv' : (isIP cfg.address || IsValidHostname cfg.address) = false := by
      cases h : (isIP cfg.address || IsValidHostname cfg.address)
      · rfl
      · exact absurd h hv
    by_cases ha : cfg.address = ""
    · exact h1 (by simp [validateNodeConfig, ha])
    · exact h2 cfg.address (by simp [validateNodeConfig, ha, hv'])
  · intro hval
    have ha : cfg.address ≠ "" := by
      intro h0
      rw [h0, hempty, isValidHostname_empty] at hval
      simp at hval
    have hshape : ∀ e, validateNodeConfig isIP cfg = .error e →
        e ≠ .addressRequired ∧ ∀ a, e ≠ .invalidAddressFormat a := by
      intro e he
      have hcond : (!(isIP cfg.address || IsValidHostname cfg.address)) = false := by
        rw [hval]; rfl
      simp only [validateNodeConfig] at he
      rw [if_neg ha] at he
      simp only [hcond, Bool.false_eq_true, if_false] at he
      repeat' split at he
      all_goals try (exact validateNodeConfigTail_error_shape _ _ he)
      all_goals cases he
      all_goals constructor
      all_goals simp
    constructor
    · intro hcontra
      exact absurd rfl (hshape _ hcontra).1
    · intro a hcontra
      exact absurd rfl ((hshape _ hcontra).2 a)
  · intro hp hk
    simp only [validateNodeConfig]
    split
    · exact ⟨_, rfl⟩
    · split
      · exact ⟨_, rfl⟩
      · split
        · exact ⟨_, rfl⟩
        · split
          · exact ⟨_, rfl⟩
          · rename_i hc
            exact absurd (by simp [hp, hk]) hc
  · intro hp hk
    simp only [validateNodeConfig]
    split
    · exact ⟨_, rfl⟩
    · split
      · exact ⟨_, rfl⟩
      · split
        · exact ⟨_, rfl⟩
        · split
          · exact ⟨_, rfl⟩
          · split
            · exact ⟨_, rfl⟩
            · rename_i hc
              exact absurd (by simp [hp, hk]) hc

/-- Witness for C8: concrete accept/reject decisions for
`validateNodeConfig` under the sample IP oracle. -/
theorem validateNodeConfig_address_auth_spec_witness :
    (((validateNodeConfig extSample.isValidIPAddress nodeBadAddress
          ≠ .error .addressRequired)
        ∧ ∀ a, validateNodeConfig extSample.isValidIPAddress nodeBadAddress
            ≠ .error (.invalidAddressFormat a))
      ↔ (extSample.isValidIPAddress nodeBadAddress.address
          || IsValidHostname nodeBadAddress.address) = true)
    ∧ (∃ e, validateNodeConfig extSample.isValidIPAddress nodeBothAuth
        = .error e)
    ∧ (∃ e, validateNodeConfig extSample.isValidIPAddress nodeNoAuth
        = .error e) :=
  ⟨(validateNodeConfig_address_auth_spec extSample.isValidIPAddress
      nodeBadAddress rfl).1,
   (validateNodeConfig_address_auth_spec extSample.isValidIPAddress
      nodeBothAuth rfl).2.1 (by decide) (by decide),
   (validateNodeConfig_address_auth_spec extSample.isValidIPAddress
      nodeNoAuth rfl).2.2 (by decide) (by decide)⟩

theorem validateClusterConfig_ok (ext : StdlibOracle) (c c' : ClusterConfig) :
    validateClusterConfig ext c = .ok c' → c' = c := by
  intro h
  simp only [validateClusterConfig] at h
  repeat' split at h
  all_goals (cases h <;> rfl)

theorem validateAppManifests_ok (a a' : ApplicationConfig) :
    validateAppManifests a = .ok a' → a' = a := by
  intro h
  simp only [validateAppManifests] at h
  repeat' split at h
  all_goals (cases h <;> rfl)

theorem validateAppSources_ok (a a' : ApplicationConfig) :
    validateAppSources a = .ok a' → a' = a := by
  intro h
  simp only [validateAppSources] at h
  repeat' split at h
  all_goals first
    | exact validateAppManifests_ok _ _ h
    | cases h

theorem validateApplicationConfig_ok_namespace (nm : String)
    (a a' : ApplicationConfig) :
    validateApplicationConfig nm a = .ok a' → a.«namespace» = "" →
      a'.«namespace» = "default" := by
  intro h hns
  simp only [validateApplicationConfig] at h
  rw [if_pos hns] at h
  repeat' split at h
  all_goals first
    | (have he := validateAppSources_ok _ _ h; subst he; rfl)
    | cases h

theorem validateNodeConfig_ok_port (isIP : String → Bool)
    (n n' : NodeConfig) :
    validateNodeConfig isIP n = .ok n' → n.port = 0 → n'.port = 22 := by
  intro h hp
  simp only [validateNodeConfig] at h
  repeat' split at h
  all_goals first
    | exact validateNodeConfigTail_ok_port _ _ h hp
    | cases h

/-- C10: `ValidateConfig` never mutates the `PlatformConfig` it is given:
the `Port = 22` and `Namespace = "default"` defaults are written only to
the loop-local copies handed to `validateNodeConfig` /
`validateApplicationConfig`, so a successful `ValidateConfig` leaves the
original `Nodes` and `Applications` (indeed the whole config) unchanged,
while the defaults are visible on the discarded copies. -/
theorem validateConfig_frame_spec :
    (∀ (ext : StdlibOracle) (cfg cfgPost : PlatformConfig),
        ValidateConfig ext cfg = .ok cfgPost →
          cfgPost.cluster.nodes = cfg.cluster.nodes
            ∧ cfgPost.applications = cfg.applications
            ∧ cfgPost = cfg)
    ∧ (∀ (isIP : String → Bool) (n n' : NodeConfig),
        validateNodeConfig isIP n = .ok n' → n.port = 0 → n'.port = 22)
    ∧ (∀ (nm : String) (a a' : ApplicationConfig),
        validateApplicationConfig nm a = .ok a' → a.«namespace» = "" →
          a'.«namespace» = "default") := by
  refine ⟨?_, validateNodeConfig_ok_port, validateApplicationConfig_ok_namespace⟩
  intro ext cfg cfgPost h
  simp only [ValidateConfig] at h
  split at h
  · cases h
  · split at h
    · cases h
    · split at h
      · cases h
      · rename_i clusterPost hcl
        split at h
        · cases h
        · split at h
          · cases h
          · split at h
            · cases h
            · split at h
              · cases h
              · injection h with h0
                have hc : clusterPost = cfg.cluster :=
                  validateClusterConfig_ok ext _ _ hcl
                subst hc
                rw [← h0]
                exact ⟨rfl, rfl, rfl⟩

/-- Witness for C10: the sample platform config passes validation and is
returned unchanged (its node still has port 0); the discarded loop-local
node copy got port 22. -/
theorem validateConfig_frame_spec_witness :
    (ValidateConfig extSample platformSample = .ok platformSample)
    ∧ nodeSample.port = 0
    ∧ validateNodeConfig extSample.isValidIPAddress nodeSample
        = .ok nodeSamplePost
    ∧ nodeSamplePost.port = 22
    ∧ appSample.«namespace» = ""
    ∧ platformSample = platformSample :=
  ⟨by decide, by decide, by decide,
   validateConfig_frame_spec.2.1 extSample.isValidIPAddress nodeSample
     nodeSamplePost (by decide) (by decide),
   by decide,
   (validateConfig_frame_spec.1 extSample platformSample platformSample
     (by decide)).2.2⟩

theorem createPoll_ready_iff (env : Nat → GetDeployResult) :
    ∀ (fuel t : Nat),
      createPoll env fuel t = .ready ↔
        ∃ j, j < fuel ∧ createReadyAt env (t + j)
          ∧ ∀ i, i < j → createRetryAt env (t + i) := by
  intro fuel
  induction fuel with
  | zero => intro t; simp [createPoll]
  | succ n ih =>
    intro t
    simp only [createPoll]
    split
    · rename_i henv
      rw [ih (t + 1)]
      constructor
      · rintro ⟨j, hj, hready, hprev⟩
        refine ⟨j + 1, by omega, ?_, ?_⟩
        · rw [show t + (j + 1) = t + 1 + j by omega]; exact hready
        · intro i hi
          cases i with
          | zero => simp [createRetryAt, henv]
          | succ i' =>
            have := hprev i' (by omega)
            rw [show t + (i' + 1) = t + 1 + i' by omega]; exact this
      · rintro ⟨j, hj, hready, hprev⟩
        cases j with
        | zero => simp [createReadyAt, henv] at hready
        | succ j' =>
          refine ⟨j', by omega, ?_, ?_⟩
          · rw [show t + 1 + j' = t + (j' + 1) by omega]; exact hready
          · intro i hi
            have := hprev (i + 1) (by omega)
            rw [show t + 1 + i = t + (i + 1) by omega]; exact this
    · rename_i e henv
      constructor
      · intro h; cases h
      · rintro ⟨j, hj, hready, hprev⟩
        cases j with
        | zero => simp [createReadyAt, henv] at hready
        | succ j' =>
          have := hprev 0 (by omega)
          simp [createRetryAt, henv] at this
    · rename_i st henv
      by_cases hc : (st.readyReplicas > 0 && st.readyReplicas ≥ st.replicas) = true
      · rw [if_pos hc]
        constructor
        · intro _
          exact ⟨0, by omega, by simpa [createReadyAt, henv] using hc,
                 fun i hi => by omega⟩
        · intro _; rfl
      · rw [if_neg hc, ih (t + 1)]
        constructor
        · rintro ⟨j, hj, hready, hprev⟩
          refine ⟨j + 1, by omega, ?_, ?_⟩
          · rw [show t + (j + 1) = t + 1 + j by omega]; exact hready
          · intro i hi
            cases i with
            | zero => simpa [createRetryAt, henv] using hc
            | succ i' =>
              have := hprev i' (by omega)
              rw [show t + (i' + 1) = t + 1 + i' by omega]; exact this
        · rintro ⟨j, hj, hready, hprev⟩
          cases j with
          | zero => simp [createReadyAt, henv, hc] at hready
          | succ j' =>
            refine ⟨j', by omega, ?_, ?_⟩
            · rw [show t + 1 + j' = t + (j' + 1) by omega]; exact hready
            · intro i hi
              have := hprev (i + 1) (by omega)
              rw [show t + 1 + i = t + (i + 1) by omega]; exact this

theorem createPoll_abort (env : Nat → GetDeployResult) :
    ∀ (fuel t j : Nat) (e : CbError), j < fuel → env (t + j) = .apiError e →
      (∀ i, i < j → createRetryAt env (t + i)) →
      createPoll env fuel t = .aborted e := by
  intro fuel
  induction fuel with
  | zero => intro t j e hj; omega
  | succ n ih =>
    intro t j e hj henv hprev
    simp only [createPoll]
    cases j with
    | zero =>
      simp only [Nat.add_zero] at henv
      rw [henv]
    | succ j' =>
      have h0 := hprev 0 (by omega)
      simp only [Nat.add_zero] at h0
      split
      · exact ih (t + 1) j' e (by omega)
          (by rw [show t + 1 + j' = t + (j' + 1) by omega]; exact henv)
          (fun i hi => by
            have := hprev (i + 1) (by omega)
            rw [show t + 1 + i = t + (i + 1) by omega]; exact this)
      · rename_i e' hev
        simp [createRetryAt, hev] at h0
      · rename_i st hev
        have hc : ¬((st.readyReplicas > 0 && st.readyReplicas ≥ st.replicas) = true) := by
          simpa [createRetryAt, hev] using h0
        rw [if_neg hc]
        exact ih (t + 1) j' e (by omega)
          (by rw [show t + 1 + j' = t + (j' + 1) by omega]; exact henv)
          (fun i hi => by
            have := hprev (i + 1) (by omega)
            rw [show t + 1 + i = t + (i + 1) by omega]; exact this)

theorem createPoll_timeout (env : Nat → GetDeployResult) :
    ∀ (fuel t : Nat), (∀ i, i < fuel → createRetryAt env (t + i)) →
      createPoll env fuel t = .timedOut := by
  intro fuel
  induction fuel with
  | zero => intro t _; rfl
  | succ n ih =>
    intro t hall
    have h0 := hall 0 (by omega)
    simp only [Nat.add_zero] at h0
    simp only [createPoll]
    split
    · exact ih (t + 1) (fun i hi => by
        have := hall (i + 1) (by omega)
        rw [show t + 1 + i = t + (i + 1) by omega]; exact this)
    · rename_i e hev
      simp [createRetryAt, hev] at h0
    · rename_i st hev
      have hc : ¬((st.readyReplicas > 0 && st.readyReplicas ≥ st.replicas) = true) := by
        simpa [createRetryAt, hev] using h0
      rw [if_neg hc]
      exact ih (t + 1) (fun i hi => by
        have := hall (i + 1) (by omega)
        rw [show t + 1 + i = t + (i + 1) by omega]; exact this)

/-- C4: `Create`, after ensuring the Host namespace, polls the deployment
named `config.Name` in `config.Namespace` at a 5-second interval with a
5-minute deadline, succeeding exactly when `ReadyReplicas > 0` and
`ReadyReplicas ≥ Replicas`; a not-found during polling is retried, any
other get error aborts polling, and exceeding the deadline returns a
VCluster-domain error whose message contains the tenant name. -/
theorem managerCreate_spec :
    (∀ (namespaces : List String) (env : Nat → GetDeployResult)
        (config : VClusterConfig),
      (config.«namespace» ∈ (managerCreate namespaces env config).2)
      ∧ ((managerCreate namespaces env config).2 =
           if config.«namespace» ∈ namespaces then namespaces
           else namespaces ++ [config.«namespace»])
      ∧ ((managerCreate namespaces env config).1 = none ↔
           ∃ j, j < pollAttempts ∧ createReadyAt env j
             ∧ ∀ i, i < j → createRetryAt env i)
      ∧ (∀ j e, j < pollAttempts → env j = .apiError e →
           (∀ i, i < j → createRetryAt env i) →
           (managerCreate namespaces env config).1 =
             some (errWithCause .vcluster (createTimeoutMsg config) e))
      ∧ ((∀ i, i < pollAttempts → createRetryAt env i) →
           (managerCreate namespaces env config).1 =
               some (errWithCause .vcluster (createTimeoutMsg config)
                 waitTimeoutErr)
             ∧ ∃ pre post,
                 createTimeoutMsg config = pre ++ config.name ++ post))
    ∧ pollIntervalSeconds = 5 ∧ pollTimeoutSeconds = 300
    ∧ pollAttempts = 60 := by
  refine ⟨?_, rfl, rfl, rfl⟩
  intro namespaces env config
  refine ⟨?_, ?_, ?_, ?_, ?_⟩
  · simp only [managerCreate]
    split <;> split <;> simp_all
  · simp only [managerCreate]
    split <;> rfl
  · simp only [managerCreate]
    constructor
    · intro h
      split at h
      · rename_i hpoll
        have := (createPoll_ready_iff env pollAttempts 0).mp hpoll
        simpa using this
      · cases h
      · cases h
    · intro hex
      have hpoll : createPoll env pollAttempts 0 = .ready := by
        rw [createPoll_ready_iff]
        simpa using hex
      rw [hpoll]
  · intro j e hj henv hprev
    have hpoll : createPoll env pollAttempts 0 = .aborted e := by
      apply createPoll_abort env pollAttempts 0 j e hj
      · simpa using henv
      · simpa using hprev
    simp only [managerCreate]
    rw [hpoll]
  · intro hall
    have hpoll : createPoll env pollAttempts 0 = .timedOut := by
      apply createPoll_timeout
      simpa using hall
    constructor
    · simp only [managerCreate]
      rw [hpoll]
    · refine ⟨"vcluster deployment '",
        "' timed out or failed to become ready in host namespace '"
          ++ config.«namespace» ++ "'", ?_⟩
      simp [createTimeoutMsg, String.append_assoc]

/-- Witness for C4: polling a deployment that never appears (every `Get`
is not-found) exhausts the deadline and returns the VCluster timeout
error, whose message contains `"biz-a"`. -/
theorem managerCreate_spec_witness :
    (managerCreate [] (fun _ => .notFound) vclusterBizA).1 =
        some (errWithCause .vcluster (createTimeoutMsg vclusterBizA)
          waitTimeoutErr)
    ∧ (∃ pre post, createTimeoutMsg vclusterBizA = pre ++ "biz-a" ++ post)
    ∧ "vcluster-biz-a" ∈ (managerCreate [] (fun _ => .notFound) vclusterBizA).2 :=
  ⟨((managerCreate_spec.1 [] (fun _ => .notFound) vclusterBizA).2.2.2.2
      (fun i _ => by simp [createRetryAt])).1,
   ((managerCreate_spec.1 [] (fun _ => .notFound) vclusterBizA).2.2.2.2
      (fun i _ => by simp [createRetryAt])).2,
   (managerCreate_spec.1 [] (fun _ => .notFound) vclusterBizA).1⟩

/-- With the tenant namespace absent, the deletion poll succeeds on its
first probe. -/
theorem deletePoll_absent (namespaces : List String) (ns : String)
    (fuel : Nat) (h : ns ∉ namespaces) :
    deletePoll namespaces ns (fuel + 1) = .ready := by
  simp [deletePoll, h]

/-- The namespace derived by the fixed convention is never in the
filtered post-delete state. -/
theorem deleteHostNamespace_not_mem_filter (namespaces : List String)
    (ns : String) :
    ns ∉ namespaces.filter (fun n => n ≠ ns) := by
  intro h
  have := List.of_mem_filter h
  simp at this

/-- In this state model `Delete` always returns nil: after the delete the
namespace is gone and the first poll probe observes absence. -/
theorem managerDelete_returns_none (namespaces : List String)
    (name : String) : (managerDelete namespaces name).1 = none := by
  simp only [managerDelete]
  have h : deletePoll
      (namespaces.filter (fun n => n ≠ deleteHostNamespace name))
      (deleteHostNamespace name) pollAttempts = .ready := by
    have h60 : pollAttempts = 59 + 1 := rfl
    rw [h60]
    exact deletePoll_absent _ _ _
      (deleteHostNamespace_not_mem_filter namespaces (deleteHostNamespace name))
  rw [h]

/-- C6: `Delete` is idempotent: for every tenant name whose host
namespace (`"vcluster-" ++ name`) is absent, `Delete` returns nil — the
not-found on the namespace delete is tolerated and the poll observes
absence on its first probe — and the Host cluster state is unchanged. -/
theorem managerDelete_idempotent_spec :
    ∀ (namespaces : List String) (name : String),
      deleteHostNamespace name ∉ namespaces →
        managerDelete namespaces name = (none, namespaces)
          ∧ deletePoll namespaces (deleteHostNamespace name)
              pollAttempts = .ready := by
  intro namespaces name h
  have hfilter : namespaces.filter (fun n => n ≠ deleteHostNamespace name)
      = namespaces := by
    apply List.filter_eq_self.mpr
    intro a ha
    simp only [ne_eq, decide_not]
    have : a ≠ deleteHostNamespace name := fun heq => h (heq ▸ ha)
    simp [this]
  constructor
  · have h1 := managerDelete_returns_none namespaces name
    simp only [managerDelete] at h1 ⊢
    rw [hfilter] at h1 ⊢
    cases hpoll : deletePoll namespaces (deleteHostNamespace name) pollAttempts
    · rfl
    · rw [hpoll] at h1; simp at h1
    · rw [hpoll] at h1; simp at h1
  · have h60 : pollAttempts = 59 + 1 := rfl
    rw [h60]
    exact deletePoll_absent _ _ _ h

/-- Witness for C6: deleting the absent tenant `ghost` leaves the Host
state untouched and returns nil. -/
theorem managerDelete_idempotent_spec_witness :
    managerDelete ["kube-system", "backend-ns"] "ghost"
        = (none, ["kube-system", "backend-ns"])
    ∧ deletePoll ["kube-system", "backend-ns"]
        (deleteHostNamespace "ghost") pollAttempts = .ready :=
  managerDelete_idempotent_spec ["kube-system", "backend-ns"] "ghost"
    (by decide)

/-- C9: `Delete` and `GetVClusterClient` derive the tenant's Host
namespace as the fixed string `"vcluster-" ++ name`, ignoring the
`VClusterConfig.Namespace` that `Create` used; consequently, when
`config.Namespace ≠ "vcluster-" ++ config.Name`, `Create` followed by
`Delete` leaves the namespace created by `Create` in place while
`Delete` still returns nil. -/
theorem vcluster_namespace_convention_spec :
    (∀ name, deleteHostNamespace name = "vcluster-" ++ name)
    ∧ (∀ name, clientHostNamespace name = "vcluster-" ++ name)
    ∧ (∀ (namespaces : List String) (env : Nat → GetDeployResult)
         (config : VClusterConfig),
        config.«namespace» ≠ "vcluster-" ++ config.name →
          (managerDelete (managerCreate namespaces env config).2
              config.name).1 = none
          ∧ config.«namespace» ∈ (managerCreate namespaces env config).2
          ∧ config.«namespace» ∈
              (managerDelete (managerCreate namespaces env config).2
                config.name).2) := by
  refine ⟨fun _ => rfl, fun _ => rfl, ?_⟩
  intro namespaces env config hne
  have hmem : config.«namespace» ∈ (managerCreate namespaces env config).2 :=
    (managerCreate_spec.1 namespaces env config).1
  refine ⟨managerDelete_returns_none _ _, hmem, ?_⟩
  have hsnd : (managerDelete (managerCreate namespaces env config).2
      config.name).2 =
      ((managerCreate namespaces env config).2).filter
        (fun n => n ≠ deleteHostNamespace config.name) := by
    simp only [managerDelete]
    split <;> rfl
  rw [hsnd]
  apply List.mem_filter.mpr
  refine ⟨hmem, ?_⟩
  have : config.«namespace» ≠ deleteHostNamespace config.name := hne
  simp [this]

/-- Witness for C9: creating `v1` in namespace `backend-ns` and then
deleting `v1` returns nil while `backend-ns` survives in the Host
state. -/
theorem vcluster_namespace_convention_spec_witness :
    (managerDelete (managerCreate [] (fun _ => .notFound) vclusterSample).2
        "v1").1 = none
    ∧ "backend-ns" ∈ (managerCreate [] (fun _ => .notFound) vclusterSample).2
    ∧ "backend-ns" ∈
        (managerDelete (managerCreate [] (fun _ => .notFound) vclusterSample).2
          "v1").2 :=
  vcluster_namespace_convention_spec.2.2 [] (fun _ => .notFound)
    vclusterSample (by decide)

/-- C2 counterexample: with the tenant's certs secret present (non-empty
CA) and no token secret anywhere in the Host state, `GetVClusterClient`
returns a client rather than a VCluster-domain error — and the returned
client carries no bearer token, contradicting the claim that a missing
token secret yields an error and that the client is configured with a
token read from it. -/
theorem getVClusterClient_token_claim_counterexample :
    GetVClusterClient hostStateNoToken "biz-a"
        = .ok { host := "https://biz-a.vcluster-biz-a.svc.cluster.local:443"
                caData := "CERTDATA", bearerToken := "" }
    ∧ getSecret hostStateNoToken "vcluster-biz-a" "biz-a-token" = none := by
  constructor
  · rfl
  · rfl

/-- C2 (amended): `GetVClusterClient` returns a client configured with
the tenant's in-cluster DNS endpoint and the CA certificate read from the
`<name>-certs` secret in the `vcluster-<name>` Host namespace; a missing
certs secret, or a missing or empty `ca.crt` payload, is a
VCluster-domain error; no token secret is consulted and the returned
client never carries a bearer token. -/
theorem getVClusterClient_spec :
    ∀ (st : HostState) (name : String),
      (∀ c, GetVClusterClient st name = .ok c →
          c.host = vclusterAPIServerURL name ∧ c.bearerToken = ""
            ∧ ∃ s, getSecret st (clientHostNamespace name)
                  (certsSecretName name) = some s
                ∧ s.data.find? (fun kv => kv.1 = "ca.crt")
                    = some ("ca.crt", c.caData)
                ∧ c.caData ≠ "")
      ∧ (getSecret st (clientHostNamespace name) (certsSecretName name)
            = none →
          ∃ e, GetVClusterClient st name = .error e ∧ e.typ = .vcluster)
      ∧ (∀ s, getSecret st (clientHostNamespace name) (certsSecretName name)
            = some s →
          ∀ ca, s.data.find? (fun kv => kv.1 = "ca.crt") = some ca →
            ca.2 ≠ "" →
            GetVClusterClient st name
              = .ok { host := vclusterAPIServerURL name
                      caData := ca.2, bearerToken := "" }) := by
  intro st name
  refine ⟨?_, ?_, ?_⟩
  · intro c hc
    simp only [GetVClusterClient] at hc
    split at hc
    · cases hc
    · rename_i s hs
      split at hc
      · cases hc
      · rename_i kv hkv
        split at hc
        · cases hc
        · rename_i hne
          injection hc with h0
          subst h0
          have hkey : kv.1 = "ca.crt" := by
            have := List.find?_some hkv
            simpa using this
          refine ⟨rfl, rfl, s, hs, ?_, hne⟩
          rw [← hkey] at hkv ⊢
          simpa using hkv
  · intro hnone
    simp only [GetVClusterClient]
    split
    · exact ⟨_, rfl, rfl⟩
    · rename_i s hs
      rw [hnone] at hs
      cases hs
  · intro s hs ca hca hne
    simp only [GetVClusterClient]
    split
    · rename_i hnone
      rw [hs] at hnone
      cases hnone
    · rename_i s' hs'
      rw [hs] at hs'
      injection hs' with h0
      subst h0
      split
      · rename_i hnone
        rw [hca] at hnone
        cases hnone
      · rename_i kv hkv
        rw [hca] at hkv
        injection hkv with h0
        subst h0
        rw [if_neg hne]

/-- Witness for C2: the concrete Host states — certs secret present gives
a tokenless client; no secrets at all gives a VCluster-domain error. -/
theorem getVClusterClient_spec_witness :
    ((GetVClusterClient hostStateNoToken "biz-a").toOption.map
        (fun c => c.bearerToken) = some "")
    ∧ (∃ e, GetVClusterClient hostStateEmpty "biz-a" = .error e
        ∧ e.typ = .vcluster) := by
  constructor
  · have h := (getVClusterClient_spec hostStateNoToken "biz-a").1
      { host := "https://biz-a.vcluster-biz-a.svc.cluster.local:443"
        caData := "CERTDATA", bearerToken := "" } (by rfl)
    rw [getVClusterClient_token_claim_counterexample.1]
    exact congrArg some h.2.1
  · exact (getVClusterClient_spec hostStateEmpty "biz-a").2.1 (by rfl)

/-- Every event emitted by one per-node loop is a phase event of that
loop's phase, on a node of the list. -/
theorem runPhaseNodes_trace_shape (po : PhaseOracle) (k : PNPhase) :
    ∀ (nodes : List NodeConfig) (ev : DeployEvent),
      ev ∈ (runPhaseNodes po k nodes).2 →
        ∃ n, n ∈ nodes ∧ ev = .phase k n := by
  intro nodes
  induction nodes with
  | nil => simp [runPhaseNodes]
  | cons node rest ih =>
    intro ev hev
    cases hr : po.run k node with
    | some e =>
      simp only [runPhaseNodes, hr] at hev
      simp at hev
      exact ⟨node, by simp, hev⟩
    | none =>
      simp only [runPhaseNodes, hr] at hev
      rcases List.mem_cons.mp hev with heq | hmem
      · exact ⟨node, by simp, heq⟩
      · obtain ⟨n, hn, hevn⟩ := ih ev hmem
        exact ⟨n, by simp [hn], hevn⟩

/-- A per-node loop that returned nil ran the phase successfully on
every node of its list. -/
theorem runPhaseNodes_none_run (po : PhaseOracle) (k : PNPhase) :
    ∀ (nodes : List NodeConfig), (runPhaseNodes po k nodes).1 = none →
      ∀ n, n ∈ nodes → po.run k n = none := by
  intro nodes
  induction nodes with
  | nil => simp
  | cons node rest ih =>
    intro hres n hn
    cases hr : po.run k node with
    | some e =>
      simp only [runPhaseNodes, hr] at hres
      cases hres
    | none =>
      simp only [runPhaseNodes, hr] at hres
      rcases List.mem_cons.mp hn with heq | hmem
      · rw [heq]; exact hr
      · exact ih hres n hmem

/-- If a per-node loop invoked the phase on a node whose run fails, the
loop's result is exactly that failure, wrapped. -/
theorem runPhaseNodes_fail (po : PhaseOracle) (k : PNPhase) :
    ∀ (nodes : List NodeConfig) (n : NodeConfig) (e : CbError),
      DeployEvent.phase k n ∈ (runPhaseNodes po k nodes).2 →
      po.run k n = some e →
      (runPhaseNodes po k nodes).1 = some (phaseWrap k n e) := by
  intro nodes
  induction nodes with
  | nil => simp [runPhaseNodes]
  | cons node rest ih =>
    intro n e hmem hrun
    cases hr : po.run k node with
    | some e' =>
      simp only [runPhaseNodes, hr] at hmem ⊢
      simp at hmem
      subst hmem
      rw [hrun] at hr
      injection hr with h0
      rw [h0]
    | none =>
      simp only [runPhaseNodes, hr] at hmem ⊢
      rcases List.mem_cons.mp hmem with heq | hmem'
      · simp at heq
        subst heq
        rw [hrun] at hr
        cases hr
      · exact ih n e hmem' hrun

/-- Every event in the per-node portion's trace is a phase event of a
phase in the list. -/
theorem runPhases_trace_shape (po : PhaseOracle) (nodes : List NodeConfig) :
    ∀ (ks : List PNPhase) (ev : DeployEvent),
      ev ∈ (runPhases po nodes ks).2 →
        ∃ k, k ∈ ks ∧ ∃ n, ev = .phase k n := by
  intro ks
  induction ks with
  | nil => simp [runPhases]
  | cons k0 ks ih =>
    intro ev hev
    cases hr : (runPhaseNodes po k0 nodes).1 with
    | some e =>
      simp only [runPhases, hr] at hev
      obtain ⟨n, -, hevn⟩ := runPhaseNodes_trace_shape po k0 nodes ev hev
      exact ⟨k0, by simp, n, hevn⟩
    | none =>
      simp only [runPhases, hr] at hev
      rcases List.mem_append.mp hev with hl | hrr
      · obtain ⟨n, -, hevn⟩ := runPhaseNodes_trace_shape po k0 nodes ev hl
        exact ⟨k0, by simp, n, hevn⟩
      · obtain ⟨k', hk', n, hevn⟩ := ih ev hrr
        exact ⟨k', by simp [hk'], n, hevn⟩

/-- If the per-node portion returned nil, every phase invocation it
traced succeeded. -/
theorem runPhases_none_run (po : PhaseOracle) (nodes : List NodeConfig) :
    ∀ (ks : List PNPhase) (k : PNPhase) (n : NodeConfig),
      (runPhases po nodes ks).1 = none →
      DeployEvent.phase k n ∈ (runPhases po nodes ks).2 →
      po.run k n = none := by
  intro ks
  induction ks with
  | nil => simp [runPhases]
  | cons k0 ks ih =>
    intro k n hres hmem
    cases hr : (runPhaseNodes po k0 nodes).1 with
    | some e =>
      simp only [runPhases, hr] at hres
      cases hres
    | none =>
      simp only [runPhases, hr] at hres hmem
      rcases List.mem_append.mp hmem with hl | hrr
      · obtain ⟨m, hm, hevn⟩ := runPhaseNodes_trace_shape po k0 nodes _ hl
        simp at hevn
        obtain ⟨hk, hn⟩ := hevn
        subst hk; subst hn
        exact runPhaseNodes_none_run po k nodes hr n hm
      · exact ih k n hres hrr

/-- If the per-node portion invoked phase `k` on node `n` and that run
fails, the whole portion returns that wrapped failure, and every traced
event is at pipeline position `≤ k`. -/
theorem runPhases_fail (po : PhaseOracle) (nodes : List NodeConfig) :
    ∀ (ks : List PNPhase),
      ks.Pairwise (fun a b => a.idx ≤ b.idx) →
      ∀ (k : PNPhase) (n : NodeConfig) (e : CbError),
        DeployEvent.phase k n ∈ (runPhases po nodes ks).2 →
        po.run k n = some e →
        (runPhases po nodes ks).1 = some (phaseWrap k n e)
        ∧ ∀ ev, ev ∈ (runPhases po nodes ks).2 →
            DeployEvent.idx ev ≤ k.idx := by
  intro ks
  induction ks with
  | nil => simp [runPhases]
  | cons k0 ks ih =>
    intro hsort k n e hmem hrun
    obtain ⟨hhead, htail⟩ := List.pairwise_cons.mp hsort
    cases hr : (runPhaseNodes po k0 nodes).1 with
    | some E =>
      simp only [runPhases, hr] at hmem ⊢
      obtain ⟨m, -, hevn⟩ := runPhaseNodes_trace_shape po k0 nodes _ hmem
      simp at hevn
      obtain ⟨hk, -⟩ := hevn
      subst hk
      constructor
      · have := runPhaseNodes_fail po k nodes n e hmem hrun
        rw [hr] at this
        injection this with h0
        rw [h0]
      · intro ev hev
        obtain ⟨m', -, hev'⟩ := runPhaseNodes_trace_shape po k nodes ev hev
        rw [hev']
        exact Nat.le_refl _
    | none =>
      simp only [runPhases, hr] at hmem ⊢
      rcases List.mem_append.mp hmem with hl | hrr
      · obtain ⟨m, hm, hevn⟩ := runPhaseNodes_trace_shape po k0 nodes _ hl
        simp at hevn
        obtain ⟨hk, hn⟩ := hevn
        subst hk; subst hn
        have := runPhaseNodes_none_run po k nodes hr n hm
        rw [hrun] at this
        cases this
      · have hkks : k ∈ ks := by
          obtain ⟨k', hk', n', hevn⟩ := runPhases_trace_shape po nodes ks _ hrr
          simp at hevn
          obtain ⟨hk, -⟩ := hevn
          rw [hk]; exact hk'
        obtain ⟨hres, hbound⟩ := ih htail k n e hrr hrun
        refine ⟨hres, ?_⟩
        intro ev hev
        rcases List.mem_append.mp hev with hl' | hrr'
        · obtain ⟨m', -, hev'⟩ := runPhaseNodes_trace_shape po k0 nodes ev hl'
          rw [hev']
          exact hhead k hkks
        · exact hbound ev hrr'

theorem PNPhase.idx_le_five (k : PNPhase) : k.idx ≤ 5 := by
  cases k <;> decide

/-- The per-node portion's trace is ordered by pipeline position. -/
theorem runPhases_trace_sorted (po : PhaseOracle) (nodes : List NodeConfig) :
    ∀ (ks : List PNPhase),
      ks.Pairwise (fun a b => a.idx ≤ b.idx) →
      (runPhases po nodes ks).2.Pairwise
        (fun a b => DeployEvent.idx a ≤ DeployEvent.idx b) := by
  intro ks
  induction ks with
  | nil => simp [runPhases]
  | cons k0 ks ih =>
    intro hsort
    obtain ⟨hhead, htail⟩ := List.pairwise_cons.mp hsort
    have hconst : ∀ tr : List DeployEvent,
        (∀ ev ∈ tr, ∃ n, ev = DeployEvent.phase k0 n) →
        tr.Pairwise (fun a b => DeployEvent.idx a ≤ DeployEvent.idx b) := by
      intro tr htr
      apply List.pairwise_of_forall_mem_list
      intro a ha b hb
      obtain ⟨na, hna⟩ := htr a ha
      obtain ⟨nb, hnb⟩ := htr b hb
      rw [hna, hnb]
      exact Nat.le_refl _
    cases hr : (runPhaseNodes po k0 nodes).1 with
    | some E =>
      simp only [runPhases, hr]
      exact hconst _ (fun ev hev =>
        (runPhaseNodes_trace_shape po k0 nodes ev hev).imp
          (fun n h => h.2))
    | none =>
      simp only [runPhases, hr]
      apply List.pairwise_append.mpr
      refine ⟨hconst _ (fun ev hev =>
          (runPhaseNodes_trace_shape po k0 nodes ev hev).imp
            (fun n h => h.2)),
        ih htail, ?_⟩
      intro a ha b hb
      obtain ⟨na, -, hna⟩ := runPhaseNodes_trace_shape po k0 nodes a ha
      obtain ⟨k', hk', nb, hnb⟩ := runPhases_trace_shape po nodes ks b hb
      rw [hna, hnb]
      exact hhead k' hk'

/-- C5: `Deploy` executes Init, OSConfig, RuntimeConfig, NetworkConfig,
StorageConfig, K8sInstall, VClusterDeploy in strict order: a failing
per-node phase run makes `Deploy` return immediately with that wrapped
error, with no later phase invoked on any node — in particular
VClusterDeploy never runs — a failing K8sInstall likewise prevents
VClusterDeploy, and the invocation trace is ordered by pipeline
position. -/
theorem deploy_strict_order_spec :
    ∀ (po : PhaseOracle) (config : PlatformConfig),
      (∀ k n e, DeployEvent.phase k n ∈ (deploy po config).2 →
         po.run k n = some e →
         (deploy po config).1 = some (phaseWrap k n e)
         ∧ (∀ k' n', k.idx < PNPhase.idx k' →
              DeployEvent.phase k' n' ∉ (deploy po config).2)
         ∧ DeployEvent.k8sInstall ∉ (deploy po config).2
         ∧ DeployEvent.vclusterPhase ∉ (deploy po config).2)
      ∧ (∀ e, DeployEvent.k8sInstall ∈ (deploy po config).2 →
           po.k8sInstall config.cluster.nodes = some e →
           (deploy po config).1 = some (errWithCause .system
               "Kubernetes Host Cluster installation phase failed" e)
           ∧ DeployEvent.vclusterPhase ∉ (deploy po config).2)
      ∧ (deploy po config).2.Pairwise
          (fun a b => DeployEvent.idx a ≤ DeployEvent.idx b) := by
  intro po config
  have hsort : perNodePhases.Pairwise (fun a b => a.idx ≤ b.idx) := by decide
  have hsorted := runPhases_trace_sorted po config.cluster.nodes
    perNodePhases hsort
  cases hr : (runPhases po config.cluster.nodes perNodePhases).1 with
  | some E =>
    refine ⟨?_, ?_, ?_⟩
    · intro k n e hmem hrun
      simp only [deploy, hr] at hmem ⊢
      obtain ⟨hres, hbound⟩ := runPhases_fail po config.cluster.nodes
        perNodePhases hsort k n e hmem hrun
      rw [hr] at hres
      injection hres with h0
      refine ⟨by rw [h0], ?_, ?_, ?_⟩
      · intro k' n' hlt hmem'
        have := hbound _ hmem'
        simp only [DeployEvent.idx] at this
        omega
      · intro hmem'
        obtain ⟨k', -, n', hev⟩ := runPhases_trace_shape po
          config.cluster.nodes perNodePhases _ hmem'
        cases hev
      · intro hmem'
        obtain ⟨k', -, n', hev⟩ := runPhases_trace_shape po
          config.cluster.nodes perNodePhases _ hmem'
        cases hev
    · intro e hmem _
      simp only [deploy, hr] at hmem
      obtain ⟨k', -, n', hev⟩ := runPhases_trace_shape po
        config.cluster.nodes perNodePhases _ hmem
      cases hev
    · simp only [deploy, hr]
      exact hsorted
  | none =>
    have hphase : ∀ k n e, DeployEvent.phase k n ∈
        (runPhases po config.cluster.nodes perNodePhases).2 →
        po.run k n = some e → False := by
      intro k n e hmem hrun
      have := runPhases_none_run po config.cluster.nodes perNodePhases
        k n hr hmem
      rw [hrun] at this
      cases this
    have hle5 : ∀ ev ∈ (runPhases po config.cluster.nodes perNodePhases).2,
        DeployEvent.idx ev ≤ 5 := by
      intro ev hev
      obtain ⟨k', -, n', hevn⟩ := runPhases_trace_shape po
        config.cluster.nodes perNodePhases _ hev
      rw [hevn]
      exact PNPhase.idx_le_five k'
    cases hk : po.k8sInstall config.cluster.nodes with
    | some e0 =>
      refine ⟨?_, ?_, ?_⟩
      · intro k n e hmem hrun
        simp only [deploy, hr, hk] at hmem
        rcases List.mem_append.mp hmem with hl | hrr
        · exact absurd hrun (by
            intro hrun'
            exact hphase k n e hl hrun')
        · simp at hrr
      · intro e hmem hke
        injection hke with h0
        subst h0
        constructor
        · simp only [deploy, hr, hk]
        · simp only [deploy, hr, hk]
          intro hmem'
          rcases List.mem_append.mp hmem' with hl | hrr
          · obtain ⟨k', -, n', hev⟩ := runPhases_trace_shape po
              config.cluster.nodes perNodePhases _ hl
            cases hev
          · simp at hrr
      · simp only [deploy, hr, hk]
        apply List.pairwise_append.mpr
        refine ⟨hsorted, by simp, ?_⟩
        intro a ha b hb
        simp at hb
        rw [hb]
        exact Nat.le_trans (hle5 a ha) (by decide)
    | none =>
      refine ⟨?_, ?_, ?_⟩
      · intro k n e hmem hrun
        simp only [deploy, hr, hk, vclusterDeployPhaseRun] at hmem
        rcases List.mem_append.mp hmem with hl | hrr
        · exact absurd hrun (by
            intro hrun'
            exact hphase k n e hl hrun')
        · simp at hrr
      · intro e _ hke
        cases hke
      · simp only [deploy, hr, hk, vclusterDeployPhaseRun]
        apply List.pairwise_append.mpr
        refine ⟨hsorted, by decide, ?_⟩
        intro a ha b hb
        simp at hb
        rcases hb with hb | hb <;> rw [hb]
        · exact Nat.le_trans (hle5 a ha) (by decide)
        · exact Nat.le_trans (hle5 a ha) (by decide)

/-- Witness for C5: an oracle failing in phase 3 (RuntimeConfig) makes
`Deploy` return that wrapped failure, with NetworkConfig, K8sInstall and
VClusterDeploy never invoked. -/
theorem deploy_strict_order_spec_witness :
    (deploy failRuntimeOracle platformC1).1
        = some (phaseWrap .runtimeConfig nodeSample
            (errNew .system "runtime start failed"))
    ∧ DeployEvent.phase .networkConfig nodeSample
        ∉ (deploy failRuntimeOracle platformC1).2
    ∧ DeployEvent.k8sInstall ∉ (deploy failRuntimeOracle platformC1).2
    ∧ DeployEvent.vclusterPhase ∉ (deploy failRuntimeOracle platformC1).2 :=
  have h := (deploy_strict_order_spec failRuntimeOracle platformC1).1
    .runtimeConfig nodeSample (errNew .system "runtime start failed")
    (by decide) rfl
  ⟨h.1, h.2.1 .networkConfig nodeSample (by decide), h.2.2.1, h.2.2.2⟩

/-- C1 (code behavior at the claim's scenario): for a PlatformConfig with
one master node and zero vclusters, with every phase succeeding, `Deploy`
runs phases 1-6 and invokes the vcluster phase, but does NOT return nil:
the vcluster phase is handed the source's nil placeholder host client,
whose `kubernetes.Interface` type assertion fails before the
empty-vcluster check, so `Deploy` returns a VCluster-domain error
wrapping the internal invalid-client error. The "skipping vcluster
deployment" nil path exists only past the assertion, as the third
conjunct shows for a valid client. -/
theorem deploy_one_master_no_vclusters_code_bug :
    (deploy allOkOracle platformC1).1
        = some (errWithCause .vcluster "vcluster deployment phase failed"
            (errNew .internal
              "invalid Host Kubernetes client provided for vcluster deployment"))
    ∧ (deploy allOkOracle platformC1).2
        = [.phase .initialization nodeSample, .phase .osConfig nodeSample,
           .phase .runtimeConfig nodeSample, .phase .networkConfig nodeSample,
           .phase .storageConfig nodeSample, .k8sInstall, .vclusterPhase]
    ∧ vclusterDeployPhaseRun allOkOracle platformC1 (some ()) = none := by
  refine ⟨rfl, rfl, rfl⟩

/-- C3 (code behavior at the claim's scenario): `ScaleHostCluster` called
with `nodesToRemove` equal to the full master set performs a `RemoveNode`
for every master and returns nil — nothing rejects the call before the
removals, because the source performs no quorum or master-set check. -/
theorem scaleHostCluster_full_master_removal_code_bug :
    scaleHostCluster defaultScaleDeployer platformThreeMasters []
        [nodeSample, master2, master3]
      = (none, [.removeNode nodeSample, .removeNode master2,
                .removeNode master3])
    ∧ platformThreeMasters.cluster.nodes = [nodeSample, master2, master3]
    ∧ (platformThreeMasters.cluster.nodes.all
        (fun node => node.roles.any (fun role => role = roleMaster))) = true := by
  refine ⟨rfl, rfl, by decide⟩

end ChasiBod
